import Mathlib

/-!
Verification development for the job-hunter repository.

This file gives a shallow embedding of the two core subsystems:

* the rate limiter (`src/utils/rate_limiter.py`): `RateLimitConfig`,
  `RateLimiter` (token bucket with sliding hourly window and exponential
  backoff), the global per-service registry, and the `with_rate_limit` /
  `rate_limited` call wrappers;
* the batch workflow orchestrator (`src/workflow_orchestrator.py`):
  `ProcessingStatus`, `WorkflowStep`, `JobProcessingResult`,
  `BatchProcessingRequest`, `BatchProcessingResult`,
  `WorkflowOrchestrator._process_single_job` and
  `WorkflowOrchestrator.process_jobs_batch`.

Modelling conventions:

* Python floats (`time.time()` values, token counts, backoff durations) are
  modelled as rationals (`Rat`); machine-precision issues are not modelled.
* `await asyncio.sleep(d)` is modelled by recording the duration `d` in the
  `sleeps` field of the returned `AcquireResult`; real time is not modelled.
* External collaborators (the AI filter, resume customizer, contact finder,
  email generator, document manager, and the SQLite queries) are oracles: an
  input record (`Collaborators`) saying what each call would return or raise.
  A raised Python exception is `Except.error msg`.
* Wall-clock timestamp fields (`start_time`, `end_time`, `created_at`,
  `total_processing_time`) and the opaque reporting payloads (`result_data`,
  confidence scores, the status dictionary returned by `get_status`) are not
  modelled; only state effects and control flow are.
-/

namespace JobHunter

/-! ## Rate limiter (`src/utils/rate_limiter.py`) -/

/-- `RateLimitConfig` (rate_limiter.py lines 17-25), with the source's
default values. -/
structure RateLimitConfig where
  requests_per_minute : Nat := 30
  requests_per_hour : Nat := 1000
  burst_limit : Nat := 5
  cooldown_seconds : Rat := 1
  backoff_multiplier : Rat := 2
  max_backoff_seconds : Rat := 300
  deriving DecidableEq

/-- The mutable fields of a `RateLimiter` object (lines 30-39). -/
structure RateLimiterState where
  tokens : Rat
  last_refill : Rat
  request_times : List Rat
  consecutive_failures : Nat
  last_failure_time : Rat
  deriving DecidableEq

namespace RateLimiter

/-- `RateLimiter.__init__` (lines 30-39); `now` is the `time.time()` value at
construction. -/
def init (config : RateLimitConfig) (now : Rat) : RateLimiterState :=
  { tokens := config.burst_limit
    last_refill := now
    request_times := []
    consecutive_failures := 0
    last_failure_time := 0 }

/-- `self.refill_rate = config.requests_per_minute / 60.0` (line 39). -/
def refill_rate (config : RateLimitConfig) : Rat :=
  (config.requests_per_minute : Rat) / 60

/-- `RateLimiter._refill_tokens` (lines 82-88). -/
def refill_tokens (config : RateLimitConfig) (s : RateLimiterState)
    (current_time : Rat) : RateLimiterState :=
  { s with
    tokens := min (config.burst_limit : Rat)
      (s.tokens + (current_time - s.last_refill) * refill_rate config)
    last_refill := current_time }

/-- The `while self.request_times and self.request_times[0] < cutoff_time:
popleft()` loop of `_check_hourly_limit` (lines 93-95): drop leading entries
below the cutoff. -/
def pruneWindow (cutoff : Rat) : List Rat → List Rat
  | [] => []
  | x :: xs => if x < cutoff then pruneWindow cutoff xs else x :: xs

/-- `RateLimiter._check_hourly_limit` (lines 90-97): prune the window to the
last hour and report whether it is still under `requests_per_hour`. -/
def check_hourly_limit (config : RateLimitConfig) (s : RateLimiterState)
    (current_time : Rat) : RateLimiterState × Bool :=
  let w := pruneWindow (current_time - 3600) s.request_times
  ({ s with request_times := w }, decide (w.length < config.requests_per_hour))

/-- `RateLimiter._get_backoff_time` (lines 107-113). -/
def get_backoff_time (config : RateLimitConfig) (s : RateLimiterState) : Rat :=
  min (config.cooldown_seconds * config.backoff_multiplier ^ s.consecutive_failures)
    config.max_backoff_seconds

/-- `RateLimiter._is_in_backoff` (lines 99-105). -/
def is_in_backoff (config : RateLimitConfig) (s : RateLimiterState)
    (current_time : Rat) : Bool :=
  if s.consecutive_failures = 0 then false
  else decide (current_time - s.last_failure_time < get_backoff_time config s)

/-- Result of one `acquire` call: the returned boolean and the durations
passed to `asyncio.sleep` during the call, in order. -/
structure AcquireResult where
  admitted : Bool
  sleeps : List Rat
  deriving DecidableEq

/-- `RateLimiter.acquire` (lines 41-80): backoff check, token refill, hourly
window check, token consumption with cooldown, or a wait for the next token.
Each branch returns; there is no retry loop in the source. -/
def acquire (config : RateLimitConfig) (s : RateLimiterState)
    (current_time : Rat) : RateLimiterState × AcquireResult :=
  if is_in_backoff config s current_time then
    (s, ⟨false, [get_backoff_time config s]⟩)
  else
    let s1 := refill_tokens config s current_time
    let p := check_hourly_limit config s1 current_time
    if !p.2 then (p.1, ⟨false, []⟩)
    else if 1 ≤ p.1.tokens then
      ({ p.1 with
          tokens := p.1.tokens - 1
          request_times := p.1.request_times ++ [current_time] },
        ⟨true, if 0 < config.cooldown_seconds then [config.cooldown_seconds] else []⟩)
    else
      (p.1, ⟨false, [1 / refill_rate config]⟩)

/-- `RateLimiter.record_success` (lines 115-117). -/
def record_success (s : RateLimiterState) : RateLimiterState :=
  { s with consecutive_failures := 0 }

/-- `RateLimiter.record_failure` (lines 119-123); `now` is the `time.time()`
value at the call. -/
def record_failure (s : RateLimiterState) (now : Rat) : RateLimiterState :=
  { s with
    consecutive_failures := s.consecutive_failures + 1
    last_failure_time := now }

/-- The state effect of `RateLimiter.get_status` (lines 125-138): it refills
tokens; the returned report dictionary is not modelled. -/
def get_status (config : RateLimitConfig) (s : RateLimiterState)
    (current_time : Rat) : RateLimiterState :=
  refill_tokens config s current_time

end RateLimiter

/-- One call on a `RateLimiter` object, for reasoning about call sequences. -/
inductive Op where
  | acquireOp
  | recordSuccessOp
  | recordFailureOp
  | getStatusOp
  deriving DecidableEq

/-- Run a sequence of timed operations against one limiter, starting from
state `s` with the list `adm` of previously admitted call times, and collect
the timestamps of admitted `acquire` calls. -/
def runOps (config : RateLimitConfig) :
    RateLimiterState × List Rat → List (Rat × Op) → RateLimiterState × List Rat
  | sa, [] => sa
  | (s, adm), (t, op) :: rest =>
    match op with
    | .acquireOp =>
      let p := RateLimiter.acquire config s t
      runOps config (p.1, if p.2.admitted then adm ++ [t] else adm) rest
    | .recordSuccessOp => runOps config (RateLimiter.record_success s, adm) rest
    | .recordFailureOp => runOps config (RateLimiter.record_failure s t, adm) rest
    | .getStatusOp => runOps config (RateLimiter.get_status config s t, adm) rest

/-- Number of entries of `l` inside the rolling one-hour window ending at
`t` (timestamps `a` with `t - 3600 < a ≤ t`). -/
def countInWindow (l : List Rat) (t : Rat) : Nat :=
  l.countP (fun a => decide (t - 3600 < a) && decide (a ≤ t))

/-- Invariant tying a limiter state to the log `adm` of all admitted call
times, at current time `now`: the sliding window is a suffix of the log whose
dropped prefix is older than one hour, all admitted times are in the past,
and every rolling one-hour window holds at most `requests_per_hour` admitted
calls. -/
def WindowInv (config : RateLimitConfig) (s : RateLimiterState)
    (adm : List Rat) (now : Rat) : Prop :=
  (∃ d, adm = d ++ s.request_times ∧ ∀ x ∈ d, x < now - 3600)
  ∧ (∀ x ∈ adm, x ≤ now)
  ∧ (∀ u, countInWindow adm u ≤ config.requests_per_hour)

/-- Invariant on the token bucket at current time `now`: the token count
lies between 0 and `burst_limit`, and the last refill is in the past. -/
def TokensInv (config : RateLimitConfig) (s : RateLimiterState) (now : Rat) : Prop :=
  0 ≤ s.tokens ∧ s.tokens ≤ (config.burst_limit : Rat) ∧ s.last_refill ≤ now

/-- Insert-or-replace on an association list, keeping the original position of
an existing key: the behaviour of `d[k] = v` on a Python dict. -/
def insertKV [BEq α] (k : α) (v : β) : List (α × β) → List (α × β)
  | [] => [(k, v)]
  | (k', v') :: rest =>
    if k == k' then (k, v) :: rest else (k', v') :: insertKV k v rest

/-- `GlobalRateLimiter.default_configs` (rate_limiter.py lines 145-152). -/
def default_configs (service : String) : RateLimitConfig :=
  if service = "linkedin" then
    { requests_per_minute := 10, requests_per_hour := 200, cooldown_seconds := 2 }
  else if service = "openrouter" then
    { requests_per_minute := 60, requests_per_hour := 3000, cooldown_seconds := 1/2 }
  else if service = "hunter_io" then
    { requests_per_minute := 30, requests_per_hour := 1000, cooldown_seconds := 1 }
  else if service = "apollo_io" then
    { requests_per_minute := 20, requests_per_hour := 500, cooldown_seconds := 3/2 }
  else if service = "ollama" then
    { requests_per_minute := 120, requests_per_hour := 5000, cooldown_seconds := 1/10 }
  else {}

/-- The `limiters` dictionary of `GlobalRateLimiter` (line 144). Since
`configure_service` is never modelled, every limiter for `service` carries
`default_configs service` (line 157). -/
structure GlobalRateLimiterState where
  limiters : List (String × RateLimiterState)

/-- `GlobalRateLimiter.get_limiter` (lines 154-161): lazily create the
limiter for a service; `now` is the `time.time()` at creation. -/
def get_limiter (g : GlobalRateLimiterState) (service : String) (now : Rat) :
    GlobalRateLimiterState × RateLimiterState :=
  match g.limiters.lookup service with
  | some s => (g, s)
  | none =>
    let s := RateLimiter.init (default_configs service) now
    ({ limiters := insertKV service s g.limiters }, s)

/-- `GlobalRateLimiter.acquire` (lines 163-166). -/
def global_acquire (g : GlobalRateLimiterState) (service : String) (t : Rat) :
    GlobalRateLimiterState × RateLimiter.AcquireResult :=
  let gl := get_limiter g service t
  let p := RateLimiter.acquire (default_configs service) gl.2 t
  ({ limiters := insertKV service p.1 gl.1.limiters }, p.2)

/-- `GlobalRateLimiter.record_success` (lines 168-171). -/
def global_record_success (g : GlobalRateLimiterState) (service : String) :
    GlobalRateLimiterState :=
  match g.limiters.lookup service with
  | some s => { limiters := insertKV service (RateLimiter.record_success s) g.limiters }
  | none => g

/-- `GlobalRateLimiter.record_failure` (lines 173-176). -/
def global_record_failure (g : GlobalRateLimiterState) (service : String) (now : Rat) :
    GlobalRateLimiterState :=
  match g.limiters.lookup service with
  | some s => { limiters := insertKV service (RateLimiter.record_failure s now) g.limiters }
  | none => g

/-- What a rate-limited call returns to its caller: a value (`none` models
Python `None`), or a re-raised exception. -/
inductive CallResult (α : Type) where
  | value : Option α → CallResult α
  | raised : String → CallResult α
  deriving DecidableEq

/-- `with_rate_limit` (lines 214-231). `f` is the wrapped callable: `.ok v`
models it returning `v` (with `.ok none` for a `None` return) and `.error e`
models it raising. `t` is the time of the `acquire` call and `t2` the time of
a subsequent `record_failure`. The final `Nat` counts invocations of `f`. -/
def with_rate_limit (g : GlobalRateLimiterState) (service : String) (t t2 : Rat)
    (f : Unit → Except String (Option α)) :
    GlobalRateLimiterState × CallResult α × Nat :=
  let p := global_acquire g service t
  if p.2.admitted then
    match f () with
    | .ok v => (global_record_success p.1 service, .value v, 1)
    | .error e => (global_record_failure p.1 service t2, .raised e, 1)
  else
    (p.1, .value none, 0)

/-- The wrapper produced by the `rate_limited` decorator (lines 193-212); its
body is the same acquire-then-call-or-drop sequence as `with_rate_limit`. -/
def rate_limited_wrapper (service : String) (g : GlobalRateLimiterState) (t t2 : Rat)
    (f : Unit → Except String (Option α)) :
    GlobalRateLimiterState × CallResult α × Nat :=
  let p := global_acquire g service t
  if p.2.admitted then
    match f () with
    | .ok v => (global_record_success p.1 service, .value v, 1)
    | .error e => (global_record_failure p.1 service t2, .raised e, 1)
  else
    (p.1, .value none, 0)

/-! ## Workflow orchestrator (`src/workflow_orchestrator.py`) -/

/-- `ProcessingStatus` (workflow_orchestrator.py lines 31-37). -/
inductive ProcessingStatus where
  | pending
  | in_progress
  | completed
  | failed
  | skipped
  deriving DecidableEq

/-- `WorkflowStep` (lines 39-47). `start_time`, `end_time` and `result_data`
are not modelled (wall clock and reporting payload only). In the source each
step record is inserted `IN_PROGRESS` and then mutated in place; here the
final record is computed before insertion, which is observationally the same
because nothing reads the record in between. -/
structure WorkflowStep where
  name : String
  status : ProcessingStatus
  error_message : Option String := none
  deriving DecidableEq

/-- Reference to a customized resume (`CustomizationResult`); its internal
fields are opaque to the orchestrator's control flow. -/
abbrev CustomizationResult := String

/-- A contact found for a company; opaque to the orchestrator. -/
abbrev Contact := String

/-- A generated outreach email; opaque to the orchestrator. -/
abbrev GeneratedEmail := String

/-- `ContactSearchResult`: only the `contacts` list steers control flow
(lines 459-463); `total_found`, `success_rate` and `search_methods_used` feed
`result_data`, which is not modelled. -/
structure ContactSearchResult where
  contacts : List Contact
  deriving DecidableEq

/-- `DocumentPackage`: only its presence steers control flow. -/
structure DocumentPackage where
  documents : List String
  deriving DecidableEq

/-- A job filter result: only `decision` (the value of `decision.value`,
one of "accept" / "reject" / "maybe") steers control flow. -/
structure FilterResult where
  decision : String
  deriving DecidableEq

/-- `JobProcessingResult` (lines 49-69). `total_processing_time` and
`created_at` are not modelled. -/
structure JobProcessingResult where
  job_id : Nat
  job_title : String
  company_name : String
  overall_status : ProcessingStatus
  steps : List (String × WorkflowStep)
  filter_result : Option String := none
  customization_result : Option CustomizationResult := none
  contact_result : Option ContactSearchResult := none
  email_results : List GeneratedEmail := []
  document_package : Option DocumentPackage := none
  deriving DecidableEq

/-- `BatchProcessingRequest` (lines 71-87), with the source's defaults.
`filter_criteria` is omitted: it is only forwarded to the filter
collaborator, which is an oracle here. -/
structure BatchProcessingRequest where
  job_ids : List Nat
  enable_filtering : Bool := true
  enable_resume_customization : Bool := true
  enable_contact_finding : Bool := true
  enable_email_generation : Bool := true
  enable_document_generation : Bool := true
  email_template : String := "professional"
  document_formats : List String := ["html", "pdf", "markdown"]
  max_concurrent_jobs : Nat := 3
  deriving DecidableEq

/-- `BatchProcessingResult` (lines 89-100). The source record has no
skipped-jobs counter. `total_processing_time`, `created_at`, `completed_at`
are not modelled. -/
structure BatchProcessingResult where
  request_id : String
  total_jobs : Nat
  successful_jobs : Nat
  failed_jobs : Nat
  job_results : List (Nat × JobProcessingResult)
  overall_status : ProcessingStatus
  deriving DecidableEq

/-- The row `_get_job_data` reads for a job: only `title` and `company` are
used by the pipeline's own control flow. -/
structure JobData where
  title : String
  company : String
  deriving DecidableEq

/-- Which external collaborator a stage invoked; used to state that rejected
jobs invoke no later-stage collaborator. -/
inductive CollabCall where
  | filterCall
  | customizationLookupCall
  | customizeResumeCall
  | findContactsCall
  | generateEmailCall
  | generateDocumentsCall
  deriving DecidableEq

/-- Oracle for one job's external interactions: what each collaborator call
would return (`Except.error e` models a raised exception with message `e`).
`_get_job_data` and `_get_existing_filter_result` catch internally and return
`None` on error, hence plain `Option`. -/
structure Collaborators where
  getJobData : Option JobData
  getExistingFilterResult : Option String := none
  filterJobsBatch : Except String (List FilterResult) := .ok []
  getCustomizationForJob : Except String (Option CustomizationResult) := .ok none
  customizeResumeForJob : Except String (Option CustomizationResult) := .ok none
  findContactsForCompany : Except String ContactSearchResult := .ok ⟨[]⟩
  generateEmail : Option CustomizationResult → Contact → Except String (Option GeneratedEmail) :=
    fun _ _ => .ok none
  generateDocumentsForJob : Except String (Option DocumentPackage) := .ok none

/-- `WorkflowOrchestrator._execute_filtering_step` (lines 347-386). A raised
exception inside the step body is caught by the step's own handler, which
marks the step `FAILED` with the exception message. -/
def execFilteringStep (r : JobProcessingResult) (c : Collaborators) :
    JobProcessingResult × List CollabCall :=
  match c.getExistingFilterResult with
  | some d =>
    ({ r with
        filter_result := some d
        steps := r.steps ++ [("filtering", ⟨"filtering", .completed, none⟩)] }, [])
  | none =>
    match c.filterJobsBatch with
    | .error e =>
      ({ r with
          steps := r.steps ++ [("filtering", ⟨"filtering", .failed, some e⟩)] },
        [.filterCall])
    | .ok [] =>
      ({ r with
          steps := r.steps ++
            [("filtering", ⟨"filtering", .failed, some "No filter result returned"⟩)] },
        [.filterCall])
    | .ok (fr :: _) =>
      ({ r with
          filter_result := some fr.decision
          steps := r.steps ++ [("filtering", ⟨"filtering", .completed, none⟩)] },
        [.filterCall])

/-- `WorkflowOrchestrator._execute_resume_customization_step`
(lines 388-424). -/
def execResumeCustomizationStep (r : JobProcessingResult) (c : Collaborators) :
    JobProcessingResult × List CollabCall :=
  match c.getCustomizationForJob with
  | .error e =>
    ({ r with
        steps := r.steps ++
          [("resume_customization", ⟨"resume_customization", .failed, some e⟩)] },
      [.customizationLookupCall])
  | .ok (some existing) =>
    ({ r with
        customization_result := some existing
        steps := r.steps ++
          [("resume_customization", ⟨"resume_customization", .completed, none⟩)] },
      [.customizationLookupCall])
  | .ok none =>
    match c.customizeResumeForJob with
    | .error e =>
      ({ r with
          steps := r.steps ++
            [("resume_customization", ⟨"resume_customization", .failed, some e⟩)] },
        [.customizationLookupCall, .customizeResumeCall])
    | .ok (some cr) =>
      ({ r with
          customization_result := some cr
          steps := r.steps ++
            [("resume_customization", ⟨"resume_customization", .completed, none⟩)] },
        [.customizationLookupCall, .customizeResumeCall])
    | .ok none =>
      ({ r with
          steps := r.steps ++
            [("resume_customization",
              ⟨"resume_customization", .failed, some "Resume customization failed"⟩)] },
        [.customizationLookupCall, .customizeResumeCall])

/-- `WorkflowOrchestrator._execute_contact_finding_step` (lines 426-451). -/
def execContactFindingStep (r : JobProcessingResult) (c : Collaborators) :
    JobProcessingResult × List CollabCall :=
  match c.findContactsForCompany with
  | .error e =>
    ({ r with
        steps := r.steps ++
          [("contact_finding", ⟨"contact_finding", .failed, some e⟩)] },
      [.findContactsCall])
  | .ok res =>
    ({ r with
        contact_result := some res
        steps := r.steps ++
          [("contact_finding", ⟨"contact_finding", .completed, none⟩)] },
      [.findContactsCall])

/-- The `for contact in top_contacts` loop of
`_execute_email_generation_step` (lines 465-478): returns the generated
emails in order, the first raised exception if any (which aborts the loop),
and the number of `generate_email` calls made. -/
def generateEmailsLoop
    (gen : Option CustomizationResult → Contact → Except String (Option GeneratedEmail))
    (cust : Option CustomizationResult) :
    List Contact → List GeneratedEmail × Option String × Nat
  | [] => ([], none, 0)
  | ct :: rest =>
    match gen cust ct with
    | .error e => ([], some e, 1)
    | .ok none =>
      let p := generateEmailsLoop gen cust rest
      (p.1, p.2.1, p.2.2 + 1)
    | .ok (some m) =>
      let p := generateEmailsLoop gen cust rest
      (m :: p.1, p.2.1, p.2.2 + 1)

/-- `WorkflowOrchestrator._execute_email_generation_step` (lines 453-495).
The customized resume is passed along (possibly absent) but never required;
the mandatory prerequisite is a nonempty contact list. Emails appended before
a mid-loop exception stay on the job result, as in the source. -/
def execEmailGenerationStep (r : JobProcessingResult) (c : Collaborators) :
    JobProcessingResult × List CollabCall :=
  match r.contact_result with
  | none =>
    ({ r with
        steps := r.steps ++
          [("email_generation",
            ⟨"email_generation", .failed, some "No contacts available for email generation"⟩)] },
      [])
  | some res =>
    if res.contacts = [] then
      ({ r with
          steps := r.steps ++
            [("email_generation",
              ⟨"email_generation", .failed, some "No contacts available for email generation"⟩)] },
        [])
    else
      let p := generateEmailsLoop c.generateEmail r.customization_result (res.contacts.take 3)
      let r1 := { r with email_results := r.email_results ++ p.1 }
      match p.2.1 with
      | some e =>
        ({ r1 with
            steps := r1.steps ++
              [("email_generation", ⟨"email_generation", .failed, some e⟩)] },
          List.replicate p.2.2 .generateEmailCall)
      | none =>
        if r1.email_results = [] then
          ({ r1 with
              steps := r1.steps ++
                [("email_generation",
                  ⟨"email_generation", .failed, some "No emails were generated"⟩)] },
            List.replicate p.2.2 .generateEmailCall)
        else
          ({ r1 with
              steps := r1.steps ++
                [("email_generation", ⟨"email_generation", .completed, none⟩)] },
            List.replicate p.2.2 .generateEmailCall)

/-- `WorkflowOrchestrator._execute_document_generation_step`
(lines 497-535). The mandatory prerequisite is the customization result. -/
def execDocumentGenerationStep (r : JobProcessingResult) (c : Collaborators) :
    JobProcessingResult × List CollabCall :=
  match r.customization_result with
  | none =>
    ({ r with
        steps := r.steps ++
          [("document_generation",
            ⟨"document_generation", .failed,
              some "No customized resume available for document generation"⟩)] },
      [])
  | some _ =>
    match c.generateDocumentsForJob with
    | .error e =>
      ({ r with
          steps := r.steps ++
            [("document_generation", ⟨"document_generation", .failed, some e⟩)] },
        [.generateDocumentsCall])
    | .ok none =>
      ({ r with
          steps := r.steps ++
            [("document_generation",
              ⟨"document_generation", .failed, some "Document generation failed"⟩)] },
        [.generateDocumentsCall])
    | .ok (some pkg) =>
      ({ r with
          document_package := some pkg
          steps := r.steps ++
            [("document_generation", ⟨"document_generation", .completed, none⟩)] },
        [.generateDocumentsCall])

/-- Lines 314-319: the job is `FAILED` when some step is `FAILED`, else
`COMPLETED`. -/
def finalizeJobStatus (r : JobProcessingResult) : JobProcessingResult :=
  { r with
    overall_status :=
      if r.steps.any (fun p => p.2.status == ProcessingStatus.failed) then .failed
      else .completed }

/-- An unexpected exception interrupting the `try` body of
`_process_single_job` is modelled as an injected raise at one of the points
between stages (index 0 before filtering, 1 before resume customization, ...,
5 after document generation): `fire inj k` is the exception message raised at
point `k`, if any. -/
def fire (inj : Option (Nat × String)) (k : Nat) : Option String :=
  match inj with
  | some (j, e) => if j = k then some e else none
  | none => none

/-- The `try` body of `_process_single_job` (lines 283-328): run the enabled
stages in order, with the early return on a filter rejection (lines 288-292)
and the final status computation. An `Except.error` carries the exception
message together with the job result and call log at the raise point. -/
def tryBody (c : Collaborators) (req : BatchProcessingRequest)
    (inj : Option (Nat × String)) (r0 : JobProcessingResult) :
    Except (String × JobProcessingResult × List CollabCall)
      (JobProcessingResult × List CollabCall) :=
  match fire inj 0 with
  | some e => .error (e, r0, [])
  | none =>
    let p1 := if req.enable_filtering then execFilteringStep r0 c else (r0, [])
    if req.enable_filtering = true ∧ p1.1.filter_result = some "reject" then
      .ok ({ p1.1 with overall_status := .skipped }, p1.2)
    else
      match fire inj 1 with
      | some e => .error (e, p1.1, p1.2)
      | none =>
        let p2 :=
          if req.enable_resume_customization then execResumeCustomizationStep p1.1 c
          else (p1.1, [])
        match fire inj 2 with
        | some e => .error (e, p2.1, p1.2 ++ p2.2)
        | none =>
          let p3 :=
            if req.enable_contact_finding then execContactFindingStep p2.1 c
            else (p2.1, [])
          match fire inj 3 with
          | some e => .error (e, p3.1, p1.2 ++ p2.2 ++ p3.2)
          | none =>
            let p4 :=
              if req.enable_email_generation then execEmailGenerationStep p3.1 c
              else (p3.1, [])
            match fire inj 4 with
            | some e => .error (e, p4.1, p1.2 ++ p2.2 ++ p3.2 ++ p4.2)
            | none =>
              let p5 :=
                if req.enable_document_generation then execDocumentGenerationStep p4.1 c
                else (p4.1, [])
              match fire inj 5 with
              | some e => .error (e, p5.1, p1.2 ++ p2.2 ++ p3.2 ++ p4.2 ++ p5.2)
              | none =>
                .ok (finalizeJobStatus p5.1, p1.2 ++ p2.2 ++ p3.2 ++ p4.2 ++ p5.2)

/-- The `except` handler of `_process_single_job` (lines 330-345): mark the
job `FAILED`; a `general_error` step is added only when no step was recorded
yet (`if not job_result.steps`, line 335). -/
def handleUnexpected (e : String) (r : JobProcessingResult) : JobProcessingResult :=
  let r1 := { r with overall_status := ProcessingStatus.failed }
  if r1.steps = [] then
    { r1 with steps := [("general_error", ⟨"general_error", .failed, some e⟩)] }
  else r1

/-- The result record created at lines 275-281, before any stage runs. -/
def initJobResult (jobId : Nat) (jd : JobData) : JobProcessingResult :=
  { job_id := jobId
    job_title := jd.title
    company_name := jd.company
    overall_status := .in_progress
    steps := [] }

/-- The early `FAILED` result returned when the job row is absent
(lines 257-264). -/
def jobNotFoundResult (jobId : Nat) : JobProcessingResult :=
  { job_id := jobId
    job_title := "Unknown"
    company_name := "Unknown"
    overall_status := .failed
    steps := [("data_loading", ⟨"data_loading", .failed, some "Job not found"⟩)] }

/-- `WorkflowOrchestrator._process_single_job` (lines 251-345): load the job
data (early `FAILED` result when absent, lines 257-264), run the `try` body,
and convert an escaping exception into a `FAILED` result. Also returns the
list of collaborator invocations made for this job. -/
def processSingleJob (jobId : Nat) (c : Collaborators)
    (req : BatchProcessingRequest) (inj : Option (Nat × String)) :
    JobProcessingResult × List CollabCall :=
  match c.getJobData with
  | none => (jobNotFoundResult jobId, [])
  | some jd =>
    match tryBody c req inj (initJobResult jobId jd) with
    | .ok rl => rl
    | .error (e, r, log) => (handleUnexpected e r, log)

/-- One iteration of the result loop of `process_jobs_batch`
(lines 172-183): accumulate (successful count, failed count, job results).
An exceptional task only increments `failed_jobs`; a returned outcome is
recorded and counted as successful exactly when `COMPLETED`. -/
def batchAggStep (acc : Nat × Nat × List (Nat × JobProcessingResult))
    (task : Except String (Nat × JobProcessingResult)) :
    Nat × Nat × List (Nat × JobProcessingResult) :=
  match task with
  | .error _ => (acc.1, acc.2.1 + 1, acc.2.2)
  | .ok (jid, jr) =>
    if jr.overall_status = ProcessingStatus.completed then
      (acc.1 + 1, acc.2.1, insertKV jid jr acc.2.2)
    else
      (acc.1, acc.2.1 + 1, insertKV jid jr acc.2.2)

/-- `WorkflowOrchestrator.process_jobs_batch` (lines 131-221). The semaphore
only bounds concurrency and `asyncio.gather` preserves task order, so the
result loop (lines 172-183) is a fold over the per-job task results in
`job_ids` order. `taskExceptions jid` models an exception escaping the task
for `jid` (the `isinstance(task_result, Exception)` branch, line 173).
`batchId` stands for the timestamp-derived request id. The `except` path of
lines 223-249 is unreachable in this model because every modelled operation
inside the `try` returns normally. -/
def processJobsBatch (batchId : String) (collabs : Nat → Collaborators)
    (req : BatchProcessingRequest) (injects : Nat → Option (Nat × String))
    (taskExceptions : Nat → Option String) : BatchProcessingResult :=
  let completed_tasks : List (Except String (Nat × JobProcessingResult)) :=
    req.job_ids.map (fun jid =>
      match taskExceptions jid with
      | some e => .error e
      | none => .ok (jid, (processSingleJob jid (collabs jid) req (injects jid)).1))
  let agg := completed_tasks.foldl batchAggStep (0, 0, [])
  { request_id := batchId
    total_jobs := req.job_ids.length
    successful_jobs := agg.1
    failed_jobs := agg.2.1
    job_results := agg.2.2
    overall_status :=
      if agg.1 = req.job_ids.length then ProcessingStatus.completed
      else if 0 < agg.1 then ProcessingStatus.completed
      else ProcessingStatus.failed }

/-- Whether the filter decision for this job resolves to "reject": either a
stored filter result says so (lines 356-359), or the fresh filter call
returns a first result whose decision is "reject" (lines 366-376). -/
def resolvesReject (c : Collaborators) : Bool :=
  match c.getExistingFilterResult with
  | some d => d == "reject"
  | none =>
    match c.filterJobsBatch with
    | .ok (fr :: _) => fr.decision == "reject"
    | _ => false

/-! ## Example inputs used by concrete evaluations -/

/-- A limiter state with three consecutive failures, last failing at time
100: at time 101 it is inside its backoff window. -/
def sBackoff : RateLimiterState := ⟨5, 0, [], 3, 100⟩

/-- A configuration whose hourly cap is one request. -/
def cfgHourlyOne : RateLimitConfig := { requests_per_hour := 1 }

/-- A limiter state whose sliding window is already full for
`cfgHourlyOne` at time 10. -/
def sFullWindow : RateLimiterState := ⟨5, 0, [0], 0, 0⟩

/-- A global registry whose "linkedin" limiter is `sBackoff`. -/
def gBackoff : GlobalRateLimiterState := ⟨[("linkedin", sBackoff)]⟩

/-- Collaborators for a job whose stored filter decision is "reject". -/
def cRej : Collaborators :=
  { getJobData := some ⟨"Engineer", "Acme"⟩, getExistingFilterResult := some "reject" }

/-- Collaborators for a job whose stored filter decision is "accept". -/
def cAccept : Collaborators :=
  { getJobData := some ⟨"Engineer", "Acme"⟩, getExistingFilterResult := some "accept" }

/-- Collaborators for an accepted job with a customized resume but an empty
contact search result. -/
def cNoContacts : Collaborators :=
  { getJobData := some ⟨"Engineer", "Acme"⟩
    getExistingFilterResult := some "accept"
    getCustomizationForJob := .ok (some "resume-v1")
    findContactsForCompany := .ok ⟨[]⟩ }

/-- Collaborators whose email generator always succeeds. -/
def cEmailOk : Collaborators :=
  { getJobData := some ⟨"Engineer", "Acme"⟩
    generateEmail := fun _ _ => .ok (some "hello") }

/-- A batch request for the single job 1 with every stage enabled. -/
def reqAll : BatchProcessingRequest := { job_ids := [1] }

/-- The batch result for a single-job batch whose job is rejected by the
filter. -/
def c1Batch : BatchProcessingResult :=
  processJobsBatch "batch_1" (fun _ => cRej) reqAll (fun _ => none) (fun _ => none)

/-- A mid-pipeline job result that already holds one found contact and no
customization result. -/
def rContacts : JobProcessingResult :=
  { job_id := 1, job_title := "Engineer", company_name := "Acme"
    overall_status := .in_progress, steps := [], contact_result := some ⟨["alice"]⟩ }

/-- A mid-pipeline job result with no artifacts at all. -/
def rPlain : JobProcessingResult :=
  { job_id := 1, job_title := "Engineer", company_name := "Acme"
    overall_status := .in_progress, steps := [] }

/-- A short operation trace: two acquires, a failure report, one more
acquire. -/
def evsEx : List (Rat × Op) :=
  [(0, .acquireOp), (1, .acquireOp), (2, .recordFailureOp), (3, .acquireOp)]

/-! ## Helper lemmas -/

@[simp] lemma refill_tokens_request_times (config : RateLimitConfig)
    (s : RateLimiterState) (t : Rat) :
    (RateLimiter.refill_tokens config s t).request_times = s.request_times := rfl

@[simp] lemma refill_tokens_last_refill (config : RateLimitConfig)
    (s : RateLimiterState) (t : Rat) :
    (RateLimiter.refill_tokens config s t).last_refill = t := rfl

@[simp] lemma refill_tokens_consecutive_failures (config : RateLimitConfig)
    (s : RateLimiterState) (t : Rat) :
    (RateLimiter.refill_tokens config s t).consecutive_failures = s.consecutive_failures := rfl

@[simp] lemma refill_tokens_last_failure_time (config : RateLimitConfig)
    (s : RateLimiterState) (t : Rat) :
    (RateLimiter.refill_tokens config s t).last_failure_time = s.last_failure_time := rfl

/-- During backoff, `acquire` leaves the state unchanged, sleeps the backoff
time, and returns not admitted. -/
lemma acquire_backoff_eq (config : RateLimitConfig) (s : RateLimiterState) (t : Rat)
    (hb : RateLimiter.is_in_backoff config s t = true) :
    RateLimiter.acquire config s t
      = (s, ⟨false, [RateLimiter.get_backoff_time config s]⟩) := by
  simp [RateLimiter.acquire, hb]

/-- With the pruned window full, `acquire` returns not admitted immediately,
with no sleep. -/
lemma acquire_hourly_full_eq (config : RateLimitConfig) (s : RateLimiterState) (t : Rat)
    (hb : RateLimiter.is_in_backoff config s t = false)
    (hge : config.requests_per_hour
      ≤ (RateLimiter.pruneWindow (t - 3600) s.request_times).length) :
    RateLimiter.acquire config s t
      = ({ RateLimiter.refill_tokens config s t with
            request_times := RateLimiter.pruneWindow (t - 3600) s.request_times },
          ⟨false, []⟩) := by
  simp [RateLimiter.acquire, RateLimiter.check_hourly_limit, hb, hge,
    RateLimiter.refill_tokens]

/-- With room in the window and a token available, `acquire` consumes one
token, appends the current time, and returns admitted. -/
lemma acquire_admitted_eq (config : RateLimitConfig) (s : RateLimiterState) (t : Rat)
    (hb : RateLimiter.is_in_backoff config s t = false)
    (hw : (RateLimiter.pruneWindow (t - 3600) s.request_times).length
      < config.requests_per_hour)
    (ht : 1 ≤ (RateLimiter.refill_tokens config s t).tokens) :
    RateLimiter.acquire config s t
      = ({ RateLimiter.refill_tokens config s t with
            tokens := (RateLimiter.refill_tokens config s t).tokens - 1
            request_times := RateLimiter.pruneWindow (t - 3600) s.request_times ++ [t] },
          ⟨true, if 0 < config.cooldown_seconds then [config.cooldown_seconds] else []⟩) := by
  have hw' := not_le.mpr hw
  simp [RateLimiter.acquire, RateLimiter.check_hourly_limit, hb, hw, hw', ht]

/-- With room in the window but no token available, `acquire` sleeps one
refill interval and returns not admitted. -/
lemma acquire_no_token_eq (config : RateLimitConfig) (s : RateLimiterState) (t : Rat)
    (hb : RateLimiter.is_in_backoff config s t = false)
    (hw : (RateLimiter.pruneWindow (t - 3600) s.request_times).length
      < config.requests_per_hour)
    (ht : (RateLimiter.refill_tokens config s t).tokens < 1) :
    RateLimiter.acquire config s t
      = ({ RateLimiter.refill_tokens config s t with
            request_times := RateLimiter.pruneWindow (t - 3600) s.request_times },
          ⟨false, [1 / RateLimiter.refill_rate config]⟩) := by
  have hw' := not_le.mpr hw
  have ht' := not_le.mpr ht
  simp [RateLimiter.acquire, RateLimiter.check_hourly_limit, hb, hw, hw', ht']

/-- Pruning drops a prefix of entries older than the cutoff and keeps the
rest. -/
lemma pruneWindow_decomp (cutoff : Rat) (l : List Rat) :
    ∃ d, l = d ++ RateLimiter.pruneWindow cutoff l ∧ ∀ x ∈ d, x < cutoff := by
  induction l with
  | nil => exact ⟨[], rfl, by simp⟩
  | cons x xs ih =>
    by_cases h : x < cutoff
    · obtain ⟨d, hd, hall⟩ := ih
      refine ⟨x :: d, ?_, ?_⟩
      · simp only [RateLimiter.pruneWindow, if_pos h, List.cons_append]
        exact congrArg (List.cons x) hd
      · intro y hy
        rcases List.mem_cons.mp hy with hy | hy
        · exact hy ▸ h
        · exact hall y hy
    · exact ⟨[], by simp [RateLimiter.pruneWindow, h], by simp⟩

lemma runOps_nil (config : RateLimitConfig) (s : RateLimiterState) (adm : List Rat) :
    runOps config (s, adm) [] = (s, adm) := rfl

lemma runOps_cons_acquire (config : RateLimitConfig) (s : RateLimiterState)
    (adm : List Rat) (t : Rat) (rest : List (Rat × Op)) :
    runOps config (s, adm) ((t, .acquireOp) :: rest)
      = runOps config ((RateLimiter.acquire config s t).1,
          if (RateLimiter.acquire config s t).2.admitted then adm ++ [t] else adm) rest := rfl

lemma runOps_cons_success (config : RateLimitConfig) (s : RateLimiterState)
    (adm : List Rat) (t : Rat) (rest : List (Rat × Op)) :
    runOps config (s, adm) ((t, .recordSuccessOp) :: rest)
      = runOps config (RateLimiter.record_success s, adm) rest := rfl

lemma runOps_cons_failure (config : RateLimitConfig) (s : RateLimiterState)
    (adm : List Rat) (t : Rat) (rest : List (Rat × Op)) :
    runOps config (s, adm) ((t, .recordFailureOp) :: rest)
      = runOps config (RateLimiter.record_failure s t, adm) rest := rfl

lemma runOps_cons_status (config : RateLimitConfig) (s : RateLimiterState)
    (adm : List Rat) (t : Rat) (rest : List (Rat × Op)) :
    runOps config (s, adm) ((t, .getStatusOp) :: rest)
      = runOps config (RateLimiter.get_status config s t, adm) rest := rfl

/-- `WindowInv` is stable under letting time pass. -/
lemma windowInv_mono (config : RateLimitConfig) (s : RateLimiterState)
    (adm : List Rat) (now t : Rat) (h : WindowInv config s adm now) (hle : now ≤ t) :
    WindowInv config s adm t := by
  obtain ⟨⟨d, hd, hdo⟩, hub, hcnt⟩ := h
  exact ⟨⟨d, hd, fun x hx => lt_of_lt_of_le (hdo x hx) (by linarith)⟩,
    fun x hx => le_trans (hub x hx) hle, hcnt⟩

/-- One `acquire` call preserves `WindowInv`, logging the admitted time. -/
lemma acquire_windowInv (config : RateLimitConfig) (s : RateLimiterState)
    (adm : List Rat) (t : Rat) (h : WindowInv config s adm t) :
    WindowInv config (RateLimiter.acquire config s t).1
      (if (RateLimiter.acquire config s t).2.admitted then adm ++ [t] else adm) t := by
  obtain ⟨⟨d, hd, hdo⟩, hub, hcnt⟩ := h
  by_cases hb : RateLimiter.is_in_backoff config s t = true
  · rw [acquire_backoff_eq config s t hb]
    exact ⟨⟨d, hd, hdo⟩, hub, hcnt⟩
  · have hb' : RateLimiter.is_in_backoff config s t = false := by simpa using hb
    obtain ⟨d2, hd2, hd2o⟩ := pruneWindow_decomp (t - 3600) s.request_times
    have hdecomp : adm = (d ++ d2) ++ RateLimiter.pruneWindow (t - 3600) s.request_times := by
      rw [List.append_assoc, ← hd2]; exact hd
    have hdrop : ∀ x ∈ d ++ d2, x < t - 3600 := by
      intro x hx
      rcases List.mem_append.mp hx with hx | hx
      · exact hdo x hx
      · exact hd2o x hx
    by_cases hw : (RateLimiter.pruneWindow (t - 3600) s.request_times).length
        < config.requests_per_hour
    · by_cases ht : 1 ≤ (RateLimiter.refill_tokens config s t).tokens
      · rw [acquire_admitted_eq config s t hb' hw ht]
        simp only [if_pos rfl, ite_true]
        refine ⟨⟨d ++ d2, ?_, fun x hx => hdrop x hx⟩, ?_, ?_⟩
        · rw [hdecomp]; simp
        · intro x hx
          rcases List.mem_append.mp hx with hx | hx
          · exact hub x hx
          · simp at hx; exact hx.le
        · intro u
          by_cases hu : (u - 3600 < t ∧ t ≤ u)
          · have hadm : List.countP (fun a => decide (u - 3600 < a) && decide (a ≤ u)) adm
                ≤ (RateLimiter.pruneWindow (t - 3600) s.request_times).length := by
              rw [hdecomp, List.countP_append]
              have hz : List.countP (fun a => decide (u - 3600 < a) && decide (a ≤ u))
                  (d ++ d2) = 0 := by
                rw [List.countP_eq_zero]
                intro x hx
                have hxlt : x < t - 3600 := hdrop x hx
                have hnx : ¬ (u - 3600 < x) := by linarith [hu.2]
                simp [hnx]
              rw [hz]
              simpa using List.countP_le_length
                (fun a => decide (u - 3600 < a) && decide (a ≤ u))
            unfold countInWindow
            rw [List.countP_append]
            have hone : List.countP (fun a => decide (u - 3600 < a) && decide (a ≤ u)) [t]
                ≤ 1 := by
              simpa using List.countP_le_length
                (fun a => decide (u - 3600 < a) && decide (a ≤ u)) (l := [t])
            omega
          · unfold countInWindow
            rw [List.countP_append]
            have hz : List.countP (fun a => decide (u - 3600 < a) && decide (a ≤ u)) [t]
                = 0 := by
              simp only [List.countP_cons, List.countP_nil]
              rcases not_and_or.mp hu with h1 | h2
              · simp [h1]
              · simp [h2]
            rw [hz]
            have := hcnt u
            unfold countInWindow at this
            omega
      · have ht' : (RateLimiter.refill_tokens config s t).tokens < 1 := not_le.mp ht
        rw [acquire_no_token_eq config s t hb' hw ht']
        simp only [ite_false, Bool.false_eq_true, if_false]
        exact ⟨⟨d ++ d2, hdecomp, hdrop⟩, hub, hcnt⟩
    · have hge := not_lt.mp hw
      rw [acquire_hourly_full_eq config s t hb' hge]
      simp only [ite_false, Bool.false_eq_true, if_false]
      exact ⟨⟨d ++ d2, hdecomp, hdrop⟩, hub, hcnt⟩

/-- `record_success`, `record_failure` and `get_status` do not touch the
sliding window. -/
lemma windowInv_record_success (config : RateLimitConfig) (s : RateLimiterState)
    (adm : List Rat) (t : Rat) (h : WindowInv config s adm t) :
    WindowInv config (RateLimiter.record_success s) adm t := h

lemma windowInv_record_failure (config : RateLimitConfig) (s : RateLimiterState)
    (adm : List Rat) (t t2 : Rat) (h : WindowInv config s adm t) :
    WindowInv config (RateLimiter.record_failure s t2) adm t := h

lemma windowInv_get_status (config : RateLimitConfig) (s : RateLimiterState)
    (adm : List Rat) (t t2 : Rat) (h : WindowInv config s adm t) :
    WindowInv config (RateLimiter.get_status config s t2) adm t := h

/-- The rolling-window bound is carried through any monotone-time run. -/
lemma runOps_windowInv (evs : List (Rat × Op)) :
    ∀ (config : RateLimitConfig) (s : RateLimiterState) (adm : List Rat) (now : Rat),
    WindowInv config s adm now → List.Chain (· ≤ ·) now (evs.map Prod.fst) →
    ∀ u, countInWindow (runOps config (s, adm) evs).2 u ≤ config.requests_per_hour := by
  induction evs with
  | nil =>
    intro config s adm now h _ u
    rw [runOps_nil]
    exact h.2.2 u
  | cons e rest ih =>
    obtain ⟨t, op⟩ := e
    intro config s adm now h hch u
    rw [List.map_cons, List.chain_cons] at hch
    obtain ⟨hle, hch'⟩ := hch
    have h' := windowInv_mono config s adm now t h hle
    cases op with
    | acquireOp =>
      rw [runOps_cons_acquire]
      exact ih config _ _ t (acquire_windowInv config s adm t h') hch' u
    | recordSuccessOp =>
      rw [runOps_cons_success]
      exact ih config _ _ t (windowInv_record_success config s adm t h') hch' u
    | recordFailureOp =>
      rw [runOps_cons_failure]
      exact ih config _ _ t (windowInv_record_failure config s adm t t h') hch' u
    | getStatusOp =>
      rw [runOps_cons_status]
      exact ih config _ _ t (windowInv_get_status config s adm t t h') hch' u

/-- The initial state satisfies the window invariant with an empty log. -/
lemma windowInv_init (config : RateLimitConfig) (t0 : Rat) :
    WindowInv config (RateLimiter.init config t0) [] t0 := by
  refine ⟨⟨[], rfl, by simp⟩, by simp, fun u => ?_⟩
  simp [countInWindow]

lemma refill_rate_nonneg (config : RateLimitConfig) :
    0 ≤ RateLimiter.refill_rate config := by
  unfold RateLimiter.refill_rate
  positivity

/-- Refilling keeps the token count within `[0, burst_limit]` and stamps the
refill time. -/
lemma refill_tokensInv (config : RateLimitConfig) (s : RateLimiterState) (t : Rat)
    (h : TokensInv config s t) :
    TokensInv config (RateLimiter.refill_tokens config s t) t := by
  obtain ⟨h0, hB, hlr⟩ := h
  have hrate := refill_rate_nonneg config
  have hs : 0 ≤ s.tokens + (t - s.last_refill) * RateLimiter.refill_rate config := by
    have := mul_nonneg (sub_nonneg.mpr hlr) hrate
    linarith
  refine ⟨?_, ?_, le_refl t⟩
  · show (0:Rat) ≤ min ((config.burst_limit : Rat))
      (s.tokens + (t - s.last_refill) * RateLimiter.refill_rate config)
    exact le_min (by positivity) hs
  · show min ((config.burst_limit : Rat))
      (s.tokens + (t - s.last_refill) * RateLimiter.refill_rate config)
        ≤ (config.burst_limit : Rat)
    exact min_le_left _ _

lemma tokensInv_mono (config : RateLimitConfig) (s : RateLimiterState) (now t : Rat)
    (h : TokensInv config s now) (hle : now ≤ t) : TokensInv config s t :=
  ⟨h.1, h.2.1, le_trans h.2.2 hle⟩

/-- When `acquire` admits, the limiter was out of backoff, the pruned window
had room, and a full token was available after refill. -/
lemma acquire_admitted_conditions (config : RateLimitConfig) (s : RateLimiterState)
    (t : Rat) (h : (RateLimiter.acquire config s t).2.admitted = true) :
    RateLimiter.is_in_backoff config s t = false
    ∧ (RateLimiter.pruneWindow (t - 3600) s.request_times).length < config.requests_per_hour
    ∧ 1 ≤ (RateLimiter.refill_tokens config s t).tokens := by
  by_cases hb : RateLimiter.is_in_backoff config s t = true
  · rw [acquire_backoff_eq config s t hb] at h
    simp at h
  · have hb' : RateLimiter.is_in_backoff config s t = false := by simpa using hb
    by_cases hw : (RateLimiter.pruneWindow (t - 3600) s.request_times).length
        < config.requests_per_hour
    · by_cases ht : 1 ≤ (RateLimiter.refill_tokens config s t).tokens
      · exact ⟨hb', hw, ht⟩
      · rw [acquire_no_token_eq config s t hb' hw (not_le.mp ht)] at h
        simp at h
    · rw [acquire_hourly_full_eq config s t hb' (not_lt.mp hw)] at h
      simp at h

/-- One `acquire` call preserves the token bounds. -/
lemma acquire_tokensInv (config : RateLimitConfig) (s : RateLimiterState) (t : Rat)
    (h : TokensInv config s t) :
    TokensInv config (RateLimiter.acquire config s t).1 t := by
  by_cases hb : RateLimiter.is_in_backoff config s t = true
  · rw [acquire_backoff_eq config s t hb]
    exact h
  · have hb' : RateLimiter.is_in_backoff config s t = false := by simpa using hb
    have hr := refill_tokensInv config s t h
    by_cases hw : (RateLimiter.pruneWindow (t - 3600) s.request_times).length
        < config.requests_per_hour
    · by_cases ht : 1 ≤ (RateLimiter.refill_tokens config s t).tokens
      · rw [acquire_admitted_eq config s t hb' hw ht]
        refine ⟨?_, ?_, le_refl t⟩
        · show (0:Rat) ≤ (RateLimiter.refill_tokens config s t).tokens - 1
          linarith
        · show (RateLimiter.refill_tokens config s t).tokens - 1 ≤ (config.burst_limit : Rat)
          linarith [hr.2.1]
      · rw [acquire_no_token_eq config s t hb' hw (not_le.mp ht)]
        exact ⟨hr.1, hr.2.1, le_refl t⟩
    · rw [acquire_hourly_full_eq config s t hb' (not_lt.mp hw)]
      exact ⟨hr.1, hr.2.1, le_refl t⟩

/-- The token bounds are carried through any monotone-time run. -/
lemma runOps_tokensInv (evs : List (Rat × Op)) :
    ∀ (config : RateLimitConfig) (s : RateLimiterState) (adm : List Rat) (now : Rat),
    TokensInv config s now → List.Chain (· ≤ ·) now (evs.map Prod.fst) →
    0 ≤ (runOps config (s, adm) evs).1.tokens
    ∧ (runOps config (s, adm) evs).1.tokens ≤ (config.burst_limit : Rat) := by
  induction evs with
  | nil =>
    intro config s adm now h _
    rw [runOps_nil]
    exact ⟨h.1, h.2.1⟩
  | cons e rest ih =>
    obtain ⟨t, op⟩ := e
    intro config s adm now h hch
    rw [List.map_cons, List.chain_cons] at hch
    obtain ⟨hle, hch'⟩ := hch
    have h' := tokensInv_mono config s now t h hle
    cases op with
    | acquireOp =>
      rw [runOps_cons_acquire]
      exact ih config _ _ t (acquire_tokensInv config s t h') hch'
    | recordSuccessOp =>
      rw [runOps_cons_success]
      exact ih config _ _ t h' hch'
    | recordFailureOp =>
      rw [runOps_cons_failure]
      exact ih config _ _ t h' hch'
    | getStatusOp =>
      rw [runOps_cons_status]
      exact ih config _ _ t (refill_tokensInv config s t h') hch'

/-- A fresh limiter satisfies the token bounds. -/
lemma tokensInv_init (config : RateLimitConfig) (t0 : Rat) :
    TokensInv config (RateLimiter.init config t0) t0 := by
  refine ⟨?_, ?_, le_refl t0⟩
  · show (0:Rat) ≤ (config.burst_limit : Rat)
    positivity
  · show ((config.burst_limit : Rat)) ≤ (config.burst_limit : Rat)
    exact le_refl _

/-! ## Claim C7: backoff formula and failure counters -/

/-- C7: the backoff delay equals
`min(cooldown_seconds * backoff_multiplier ^ consecutive_failures,
max_backoff_seconds)` — and it is exactly the delay slept by `acquire` during
backoff; `record_success` resets `consecutive_failures` to 0;
`record_failure` increments it and stamps `last_failure_time`. -/
theorem backoff_formula_and_failure_counters (config : RateLimitConfig)
    (s : RateLimiterState) (t : Rat) :
    RateLimiter.get_backoff_time config s
      = min (config.cooldown_seconds * config.backoff_multiplier ^ s.consecutive_failures)
          config.max_backoff_seconds
    ∧ (RateLimiter.record_success s).consecutive_failures = 0
    ∧ (RateLimiter.record_failure s t).consecutive_failures = s.consecutive_failures + 1
    ∧ (RateLimiter.record_failure s t).last_failure_time = t
    ∧ (RateLimiter.is_in_backoff config s t = true →
        (RateLimiter.acquire config s t).2.sleeps
          = [min (config.cooldown_seconds * config.backoff_multiplier ^ s.consecutive_failures)
              config.max_backoff_seconds]) := by
  refine ⟨rfl, rfl, rfl, rfl, fun h => ?_⟩
  simp [RateLimiter.acquire, h, RateLimiter.get_backoff_time]

/-- `sBackoff` is inside its backoff window at time 101 under the default
configuration: `101 - 100 < min (1 * 2 ^ 3) 300`. -/
lemma sBackoff_in_backoff : RateLimiter.is_in_backoff {} sBackoff 101 = true := by
  norm_num [RateLimiter.is_in_backoff, RateLimiter.get_backoff_time, sBackoff, min_def]

/-- Witness for C7 at the concrete default configuration with three recorded
failures: the slept backoff is `min (1 * 2 ^ 3) 300`. -/
theorem backoff_formula_and_failure_counters_witness :
    RateLimiter.is_in_backoff {} sBackoff 101 = true
    ∧ (RateLimiter.acquire {} sBackoff 101).2.sleeps
        = [min ((1 : Rat) * 2 ^ 3) 300] :=
  ⟨sBackoff_in_backoff,
    (backoff_formula_and_failure_counters {} sBackoff 101).2.2.2.2 sBackoff_in_backoff⟩

/-! ## Claim C2: `acquire` reports refusals instead of retrying -/

/-- C2 counterexample: an `acquire` call during backoff returns
`admitted = false` to the caller — the governor does reject a call outright
rather than suspending until it can return admitted. -/
theorem acquire_reports_refusal :
    (RateLimiter.acquire {} sBackoff 101).2.admitted = false := by
  simp [RateLimiter.acquire, sBackoff_in_backoff]

/-- C2 (amended): `acquire` never raises (it is a total function into a
result value) but does not loop until admission: it admits exactly when not
in backoff, the pruned hourly window is below the cap, and a token is
available after refill; during backoff it sleeps the backoff time and then
returns not admitted; with the hourly window full it returns not admitted
immediately with no sleep; with no token available it sleeps one refill
interval and returns not admitted. -/
theorem acquire_refusal_characterization (config : RateLimitConfig)
    (s : RateLimiterState) (t : Rat) :
    ((RateLimiter.acquire config s t).2.admitted = true ↔
      (RateLimiter.is_in_backoff config s t = false
        ∧ (RateLimiter.pruneWindow (t - 3600) s.request_times).length < config.requests_per_hour
        ∧ 1 ≤ (RateLimiter.refill_tokens config s t).tokens))
    ∧ (RateLimiter.is_in_backoff config s t = true →
        RateLimiter.acquire config s t = (s, ⟨false, [RateLimiter.get_backoff_time config s]⟩))
    ∧ (RateLimiter.is_in_backoff config s t = false →
        config.requests_per_hour ≤ (RateLimiter.pruneWindow (t - 3600) s.request_times).length →
        RateLimiter.acquire config s t
          = ({ RateLimiter.refill_tokens config s t with
                request_times := RateLimiter.pruneWindow (t - 3600) s.request_times },
              ⟨false, []⟩))
    ∧ (RateLimiter.is_in_backoff config s t = false →
        (RateLimiter.pruneWindow (t - 3600) s.request_times).length < config.requests_per_hour →
        (RateLimiter.refill_tokens config s t).tokens < 1 →
        (RateLimiter.acquire config s t).2 = ⟨false, [1 / RateLimiter.refill_rate config]⟩) := by
  by_cases hb : RateLimiter.is_in_backoff config s t = true
  · refine ⟨?_, fun _ => ?_, fun hf _ => ?_, fun hf _ _ => ?_⟩
    · simp [RateLimiter.acquire, hb]
    · simp [RateLimiter.acquire, hb]
    · simp [hf] at hb
    · simp [hf] at hb
  · have hb' : RateLimiter.is_in_backoff config s t = false := by
      simpa using hb
    by_cases hw :
        (RateLimiter.pruneWindow (t - 3600) s.request_times).length < config.requests_per_hour
    · have hw' : ¬ (config.requests_per_hour ≤
          (RateLimiter.pruneWindow (t - 3600) s.request_times).length) := not_le.mpr hw
      by_cases ht : 1 ≤ (RateLimiter.refill_tokens config s t).tokens
      · refine ⟨?_, fun hf => ?_, fun _ hge => ?_, fun _ _ hlt => ?_⟩
        · simp [RateLimiter.acquire, RateLimiter.check_hourly_limit, hb', hw, hw', ht]
        · simp [hf] at hb'
        · exact absurd hge (by omega)
        · exact absurd hlt (not_lt.mpr ht)
      · refine ⟨?_, fun hf => ?_, fun _ hge => ?_, fun _ _ _ => ?_⟩
        · simp [RateLimiter.acquire, RateLimiter.check_hourly_limit, hb', hw, hw', ht]
        · simp [hf] at hb'
        · exact absurd hge (by omega)
        · simp [RateLimiter.acquire, RateLimiter.check_hourly_limit, hb', hw, hw', ht]
    · have hge : config.requests_per_hour ≤
          (RateLimiter.pruneWindow (t - 3600) s.request_times).length := not_lt.mp hw
      refine ⟨?_, fun hf => ?_, fun _ _ => ?_, fun _ hwlt _ => ?_⟩
      · simp [RateLimiter.acquire, RateLimiter.check_hourly_limit, hb', hw, hge]
      · simp [hf] at hb'
      · simp [RateLimiter.acquire, RateLimiter.check_hourly_limit, hb', hw, hge,
          RateLimiter.refill_tokens]
      · exact absurd hwlt (by omega)

/-- Witness for C2 (amended) at a concrete backoff state: the call sleeps
the backoff time and returns it as a refusal. -/
theorem acquire_refusal_characterization_witness :
    RateLimiter.acquire {} sBackoff 101
      = (sBackoff, ⟨false, [RateLimiter.get_backoff_time {} sBackoff]⟩) :=
  (acquire_refusal_characterization {} sBackoff 101).2.1 sBackoff_in_backoff

/-! ## Claim C10: dropped rate-limited calls return `None` -/

/-- C10: when `acquire` does not admit the call, `with_rate_limit` and the
`rate_limited` wrapper return `None` without invoking the wrapped callable
(invocation count 0); and an admitted call whose callable returns `None`
produces the same visible `None`, so the caller cannot tell the two apart. -/
theorem dropped_call_returns_none (g : GlobalRateLimiterState) (service : String)
    (t t2 : Rat) (f : Unit → Except String (Option α)) :
    ((global_acquire g service t).2.admitted = false →
      with_rate_limit g service t t2 f = ((global_acquire g service t).1, .value none, 0)
      ∧ rate_limited_wrapper service g t t2 f
        = ((global_acquire g service t).1, .value none, 0))
    ∧ ((global_acquire g service t).2.admitted = true →
        (with_rate_limit g service t t2 (fun _ => Except.ok none)).2.1
          = CallResult.value (α := α) none) := by
  constructor
  · intro h
    constructor
    · simp [with_rate_limit, h]
    · simp [rate_limited_wrapper, h]
  · intro h
    simp [with_rate_limit, h]

/-- At time 101 the "linkedin" limiter of `gBackoff` is in backoff, so the
global acquire refuses. -/
lemma gBackoff_refused : (global_acquire gBackoff "linkedin" 101).2.admitted = false := by
  have h : RateLimiter.is_in_backoff (default_configs "linkedin") sBackoff 101 = true := by
    norm_num [RateLimiter.is_in_backoff, RateLimiter.get_backoff_time, sBackoff,
      default_configs, min_def]
  simp [global_acquire, get_limiter, gBackoff, List.lookup, RateLimiter.acquire, h]

/-- A fresh "linkedin" limiter admits a call at time 0. -/
lemma fresh_linkedin_admitted :
    (global_acquire ⟨[]⟩ "linkedin" 0).2.admitted = true := by
  norm_num [global_acquire, get_limiter, List.lookup, RateLimiter.init, default_configs,
    RateLimiter.acquire, RateLimiter.is_in_backoff, RateLimiter.check_hourly_limit,
    RateLimiter.pruneWindow, RateLimiter.refill_tokens, RateLimiter.refill_rate, min_def]

/-- Witness for C10: a "linkedin" call at time 101 against `gBackoff` is
dropped (limiter in backoff) and returns `None` with zero invocations; a
call against a fresh registry is admitted and a `None`-returning callable
also yields `None`. -/
theorem dropped_call_returns_none_witness :
    (with_rate_limit gBackoff "linkedin" 101 101 (fun _ => Except.ok (some 7))
        = ((global_acquire gBackoff "linkedin" 101).1, .value none, 0)
      ∧ rate_limited_wrapper "linkedin" gBackoff 101 101 (fun _ => Except.ok (some 7))
        = ((global_acquire gBackoff "linkedin" 101).1, .value none, 0))
    ∧ (with_rate_limit ⟨[]⟩ "linkedin" 0 0 (fun _ => Except.ok none)).2.1
        = CallResult.value (α := Nat) none :=
  ⟨(dropped_call_returns_none gBackoff "linkedin" 101 101
      (fun _ => Except.ok (some 7))).1 gBackoff_refused,
    (dropped_call_returns_none (α := Nat) ⟨[]⟩ "linkedin" 0 0
      (fun _ => Except.ok none)).2 fresh_linkedin_admitted⟩

/-! ## Claim C6: hourly sliding window -/

/-- C6 counterexample: with the pruned window already holding
`requests_per_hour` entries, `acquire` returns not admitted with an empty
sleep list — the call is dropped immediately, the caller is neither
suspended until the oldest entry ages out nor retried. -/
theorem hourly_full_call_dropped :
    (RateLimiter.acquire cfgHourlyOne sFullWindow 10).2
      = ⟨false, []⟩ := by
  have hb : RateLimiter.is_in_backoff cfgHourlyOne sFullWindow 10 = false := rfl
  have hge : cfgHourlyOne.requests_per_hour
      ≤ (RateLimiter.pruneWindow (10 - 3600) sFullWindow.request_times).length := by
    norm_num [RateLimiter.pruneWindow, sFullWindow, cfgHourlyOne]
  rw [acquire_hourly_full_eq cfgHourlyOne sFullWindow 10 hb hge]

/-- C6 (amended): on each `acquire` the window is pruned to entries younger
than one hour (the dropped prefix is entirely older); when the pruned window
already holds `requests_per_hour` entries the call returns not admitted
immediately (no suspension, no retry); and across any rolling 60-minute
window the admitted calls of a monotone-time run never exceed
`requests_per_hour`. -/
theorem hourly_window_bound (config : RateLimitConfig) :
    (∀ (t : Rat) (l : List Rat), ∃ dropped,
        l = dropped ++ RateLimiter.pruneWindow (t - 3600) l
        ∧ ∀ x ∈ dropped, x < t - 3600)
    ∧ (∀ s t, RateLimiter.is_in_backoff config s t = false →
        config.requests_per_hour
          ≤ (RateLimiter.pruneWindow (t - 3600) s.request_times).length →
        RateLimiter.acquire config s t
          = ({ RateLimiter.refill_tokens config s t with
                request_times := RateLimiter.pruneWindow (t - 3600) s.request_times },
              ⟨false, []⟩))
    ∧ (∀ (t0 : Rat) (evs : List (Rat × Op)),
        List.Chain (· ≤ ·) t0 (evs.map Prod.fst) →
        ∀ u, countInWindow (runOps config (RateLimiter.init config t0, []) evs).2 u
          ≤ config.requests_per_hour) :=
  ⟨fun t l => pruneWindow_decomp (t - 3600) l,
    fun s t hb hge => acquire_hourly_full_eq config s t hb hge,
    fun t0 evs hch u =>
      runOps_windowInv evs config _ [] t0 (windowInv_init config t0) hch u⟩

/-- Witness for C6 at concrete inputs: the full-window refusal at
`cfgHourlyOne`, and the rolling bound on the concrete trace `evsEx` under the
default configuration. -/
theorem hourly_window_bound_witness :
    (RateLimiter.acquire cfgHourlyOne sFullWindow 10
      = ({ RateLimiter.refill_tokens cfgHourlyOne sFullWindow 10 with
            request_times := RateLimiter.pruneWindow (10 - 3600) sFullWindow.request_times },
          ⟨false, []⟩))
    ∧ countInWindow (runOps {} (RateLimiter.init {} 0, []) evsEx).2 1 ≤ (1000 : Nat) :=
  ⟨(hourly_window_bound cfgHourlyOne).2.1 sFullWindow 10 rfl
      (by norm_num [RateLimiter.pruneWindow, sFullWindow, cfgHourlyOne]),
    (hourly_window_bound {}).2.2 0 evsEx (by norm_num [evsEx, List.chain_cons]) 1⟩

/-! ## Claim C9: token bucket bounds -/

/-- A fresh default-configuration limiter admits a call at time 0. -/
lemma fresh_default_admitted :
    (RateLimiter.acquire {} (RateLimiter.init {} 0) 0).2.admitted = true := by
  norm_num [RateLimiter.acquire, RateLimiter.init, RateLimiter.is_in_backoff,
    RateLimiter.check_hourly_limit, RateLimiter.pruneWindow, RateLimiter.refill_tokens,
    RateLimiter.refill_rate, min_def]

/-- C9: every refill caps the token count at `burst_limit`; `acquire`
decrements exactly one token and only when at least one token is available
after refill; and along any monotone-time operation sequence from a fresh
limiter the token count stays between 0 and `burst_limit`. -/
theorem token_count_bounds (config : RateLimitConfig) :
    (∀ s t, (RateLimiter.refill_tokens config s t).tokens ≤ (config.burst_limit : Rat))
    ∧ (∀ s t, (RateLimiter.acquire config s t).2.admitted = true →
        1 ≤ (RateLimiter.refill_tokens config s t).tokens
        ∧ (RateLimiter.acquire config s t).1.tokens
            = (RateLimiter.refill_tokens config s t).tokens - 1)
    ∧ (∀ (t0 : Rat) (evs : List (Rat × Op)),
        List.Chain (· ≤ ·) t0 (evs.map Prod.fst) →
        0 ≤ (runOps config (RateLimiter.init config t0, []) evs).1.tokens
        ∧ (runOps config (RateLimiter.init config t0, []) evs).1.tokens
            ≤ (config.burst_limit : Rat)) := by
  refine ⟨fun s t => ?_, fun s t h => ?_, fun t0 evs hch => ?_⟩
  · show min ((config.burst_limit : Rat))
      (s.tokens + (t - s.last_refill) * RateLimiter.refill_rate config)
        ≤ (config.burst_limit : Rat)
    exact min_le_left _ _
  · obtain ⟨hb, hw, ht⟩ := acquire_admitted_conditions config s t h
    refine ⟨ht, ?_⟩
    rw [acquire_admitted_eq config s t hb hw ht]
  · exact runOps_tokensInv evs config _ [] t0 (tokensInv_init config t0) hch

/-- Witness for C9 at concrete inputs: the fresh default limiter admits at
time 0 having a full token, and the bounds hold after the concrete trace
`evsEx`. -/
theorem token_count_bounds_witness :
    (1 ≤ (RateLimiter.refill_tokens {} (RateLimiter.init {} 0) 0).tokens
      ∧ (RateLimiter.acquire {} (RateLimiter.init {} 0) 0).1.tokens
          = (RateLimiter.refill_tokens {} (RateLimiter.init {} 0) 0).tokens - 1)
    ∧ (0 ≤ (runOps {} (RateLimiter.init {} 0, []) evsEx).1.tokens
      ∧ (runOps {} (RateLimiter.init {} 0, []) evsEx).1.tokens ≤ ((5 : Nat) : Rat)) :=
  ⟨(token_count_bounds {}).2.1 _ _ fresh_default_admitted,
    (token_count_bounds {}).2.2 0 evsEx (by norm_num [evsEx, List.chain_cons])⟩

/-! ## Orchestrator helper lemmas -/

/-- With an unfiltered initial record, the filtering step leaves
`filter_result = some "reject"` exactly when the decision resolves to
reject. -/
lemma execFilteringStep_reject_iff (r : JobProcessingResult) (c : Collaborators)
    (h : r.filter_result = none) :
    ((execFilteringStep r c).1.filter_result = some "reject" ↔ resolvesReject c = true) := by
  cases hef : c.getExistingFilterResult with
  | some d => simp [execFilteringStep, resolvesReject, hef]
  | none =>
    cases hfb : c.filterJobsBatch with
    | error e => simp [execFilteringStep, resolvesReject, hef, hfb, h]
    | ok l =>
      cases l with
      | nil => simp [execFilteringStep, resolvesReject, hef, hfb, h]
      | cons fr rest => simp [execFilteringStep, resolvesReject, hef, hfb]

/-- When the decision resolves to reject, the filtering step record is
`Completed` and only the filter collaborator can have been invoked. -/
lemma execFilteringStep_reject_case (r : JobProcessingResult) (c : Collaborators)
    (h : resolvesReject c = true) :
    (execFilteringStep r c).1.steps
      = r.steps ++ [("filtering", ⟨"filtering", ProcessingStatus.completed, none⟩)]
    ∧ ∀ x ∈ (execFilteringStep r c).2, x = CollabCall.filterCall := by
  unfold resolvesReject at h
  cases hef : c.getExistingFilterResult with
  | some d => exact ⟨by simp [execFilteringStep, hef], by simp [execFilteringStep, hef]⟩
  | none =>
    rw [hef] at h
    cases hfb : c.filterJobsBatch with
    | error e => rw [hfb] at h; simp at h
    | ok l =>
      rw [hfb] at h
      cases l with
      | nil => simp at h
      | cons fr rest =>
        exact ⟨by simp [execFilteringStep, hef, hfb], by simp [execFilteringStep, hef, hfb]⟩

/-- `finalizeJobStatus` keeps the steps, sets `FAILED` exactly when some step
failed, and never yields any status other than `FAILED` / `COMPLETED`. -/
lemma finalizeJobStatus_spec (r : JobProcessingResult) :
    (finalizeJobStatus r).steps = r.steps
    ∧ ((finalizeJobStatus r).overall_status = ProcessingStatus.failed
        ↔ (finalizeJobStatus r).steps.any
            (fun p => p.2.status == ProcessingStatus.failed) = true)
    ∧ ((finalizeJobStatus r).overall_status = ProcessingStatus.failed
        ∨ (finalizeJobStatus r).overall_status = ProcessingStatus.completed) := by
  unfold finalizeJobStatus
  by_cases h : r.steps.any (fun p => p.2.status == ProcessingStatus.failed) = true
  · simp [h]
  · simp [h]

/-- If the filter decision does not resolve to reject (or filtering is
disabled), the early-return guard of the pipeline is false. -/
lemma guard_false_of_not_reject (jobId : Nat) (c : Collaborators)
    (req : BatchProcessingRequest) (jd : JobData)
    (h : ¬(req.enable_filtering = true ∧ resolvesReject c = true)) :
    ¬(req.enable_filtering = true ∧
      (if req.enable_filtering then execFilteringStep (initJobResult jobId jd) c
        else (initJobResult jobId jd, [])).1.filter_result = some "reject") := by
  rintro ⟨h1, h2⟩
  rw [if_pos h1] at h2
  exact h ⟨h1, (execFilteringStep_reject_iff _ c rfl).mp h2⟩

/-- Pipeline value on the filter-rejection path. -/
lemma processSingleJob_reject (jobId : Nat) (c : Collaborators)
    (req : BatchProcessingRequest) (jd : JobData)
    (hjd : c.getJobData = some jd) (hf : req.enable_filtering = true)
    (hfr : (execFilteringStep (initJobResult jobId jd) c).1.filter_result = some "reject") :
    processSingleJob jobId c req none
      = ({ (execFilteringStep (initJobResult jobId jd) c).1 with
            overall_status := ProcessingStatus.skipped },
          (execFilteringStep (initJobResult jobId jd) c).2) := by
  have hp1 : (if req.enable_filtering then execFilteringStep (initJobResult jobId jd) c
      else (initJobResult jobId jd, [])) = execFilteringStep (initJobResult jobId jd) c := by
    simp [hf]
  have hgu : req.enable_filtering = true ∧
      (if req.enable_filtering then execFilteringStep (initJobResult jobId jd) c
        else (initJobResult jobId jd, [])).1.filter_result = some "reject" :=
    ⟨hf, by rw [hp1]; exact hfr⟩
  simp only [processSingleJob, hjd, tryBody, fire]
  rw [if_pos hgu, hp1]

/-- Pipeline value when the filter does not short-circuit: the stages run in
order and the final status is computed by `finalizeJobStatus`. -/
lemma processSingleJob_no_reject (jobId : Nat) (c : Collaborators)
    (req : BatchProcessingRequest) (jd : JobData)
    (hjd : c.getJobData = some jd)
    (hg : ¬(req.enable_filtering = true ∧
      (if req.enable_filtering then execFilteringStep (initJobResult jobId jd) c
        else (initJobResult jobId jd, [])).1.filter_result = some "reject")) :
    processSingleJob jobId c req none
      = (let p1 := if req.enable_filtering then execFilteringStep (initJobResult jobId jd) c
            else (initJobResult jobId jd, []);
         let p2 := if req.enable_resume_customization then execResumeCustomizationStep p1.1 c
            else (p1.1, []);
         let p3 := if req.enable_contact_finding then execContactFindingStep p2.1 c
            else (p2.1, []);
         let p4 := if req.enable_email_generation then execEmailGenerationStep p3.1 c
            else (p3.1, []);
         let p5 := if req.enable_document_generation then execDocumentGenerationStep p4.1 c
            else (p4.1, []);
         (finalizeJobStatus p5.1, p1.2 ++ p2.2 ++ p3.2 ++ p4.2 ++ p5.2)) := by
  simp only [processSingleJob, hjd, tryBody, fire]
  rw [if_neg hg]

/-- Status facts for the non-rejected pipeline: the final status is `FAILED`
or `COMPLETED`, and `FAILED` exactly when some recorded step failed. -/
lemma processSingleJob_no_reject_status (jobId : Nat) (c : Collaborators)
    (req : BatchProcessingRequest) (jd : JobData)
    (hjd : c.getJobData = some jd)
    (hg : ¬(req.enable_filtering = true ∧
      (if req.enable_filtering then execFilteringStep (initJobResult jobId jd) c
        else (initJobResult jobId jd, [])).1.filter_result = some "reject")) :
    ((processSingleJob jobId c req none).1.overall_status = ProcessingStatus.failed
      ∨ (processSingleJob jobId c req none).1.overall_status = ProcessingStatus.completed)
    ∧ ((processSingleJob jobId c req none).1.overall_status = ProcessingStatus.failed
      ↔ (processSingleJob jobId c req none).1.steps.any
          (fun p => p.2.status == ProcessingStatus.failed) = true) := by
  rw [processSingleJob_no_reject jobId c req jd hjd hg]
  dsimp only
  exact ⟨(finalizeJobStatus_spec _).2.2, (finalizeJobStatus_spec _).2.1⟩

/-- The document generation step always records its own stage. -/
lemma execDocumentGenerationStep_mem (r : JobProcessingResult) (c : Collaborators) :
    ∃ st, ("document_generation", st) ∈ (execDocumentGenerationStep r c).1.steps := by
  cases hcu : r.customization_result with
  | none =>
    exact ⟨⟨"document_generation", .failed,
      some "No customized resume available for document generation"⟩,
      by simp [execDocumentGenerationStep, hcu]⟩
  | some cr =>
    cases hdg : c.generateDocumentsForJob with
    | error e =>
      exact ⟨⟨"document_generation", .failed, some e⟩,
        by simp [execDocumentGenerationStep, hcu, hdg]⟩
    | ok o =>
      cases o with
      | none =>
        exact ⟨⟨"document_generation", .failed, some "Document generation failed"⟩,
          by simp [execDocumentGenerationStep, hcu, hdg]⟩
      | some pkg =>
        exact ⟨⟨"document_generation", .completed, none⟩,
          by simp [execDocumentGenerationStep, hcu, hdg]⟩

/-- When every generator call returns an email, the loop returns one email
per contact and no error. -/
lemma generateEmailsLoop_all_some
    (gen : Option CustomizationResult → Contact → Except String (Option GeneratedEmail))
    (cust : Option CustomizationResult) (m : GeneratedEmail) :
    ∀ cts : List Contact, (∀ ct ∈ cts, gen cust ct = Except.ok (some m)) →
    (generateEmailsLoop gen cust cts).1 = List.replicate cts.length m
    ∧ (generateEmailsLoop gen cust cts).2.1 = none := by
  intro cts
  induction cts with
  | nil => intro _; exact ⟨rfl, rfl⟩
  | cons ct rest ih =>
    intro h
    have hct := h ct (List.mem_cons_self ct rest)
    have hrest := ih (fun x hx => h x (List.mem_cons_of_mem ct hx))
    simp [generateEmailsLoop, hct, hrest.1, hrest.2, List.replicate_succ]

/-- The exception handler always returns a `FAILED` outcome with a nonempty
step map. -/
lemma handleUnexpected_spec (e : String) (r : JobProcessingResult) :
    (handleUnexpected e r).overall_status = ProcessingStatus.failed
    ∧ (handleUnexpected e r).steps ≠ [] := by
  unfold handleUnexpected
  by_cases h : r.steps = []
  · simp [h]
  · simp [h]

/-- With no raise before the guard and the guard true, the body
early-returns the skipped outcome. -/
lemma tryBody_guard_true (c : Collaborators) (req : BatchProcessingRequest)
    (inj : Option (Nat × String)) (r0 : JobProcessingResult)
    (h0 : fire inj 0 = none)
    (hg : req.enable_filtering = true ∧
      (if req.enable_filtering then execFilteringStep r0 c else (r0, [])).1.filter_result
        = some "reject") :
    tryBody c req inj r0
      = .ok ({ (if req.enable_filtering then execFilteringStep r0 c else (r0, [])).1 with
            overall_status := ProcessingStatus.skipped },
          (if req.enable_filtering then execFilteringStep r0 c else (r0, [])).2) := by
  simp only [tryBody, h0]
  rw [if_pos hg]

/-- An injection that never fires leaves the body unchanged. -/
lemma tryBody_no_fire (c : Collaborators) (req : BatchProcessingRequest)
    (inj : Option (Nat × String)) (r0 : JobProcessingResult)
    (h0 : fire inj 0 = none) (h1 : fire inj 1 = none) (h2 : fire inj 2 = none)
    (h3 : fire inj 3 = none) (h4 : fire inj 4 = none) (h5 : fire inj 5 = none) :
    tryBody c req inj r0 = tryBody c req none r0 := by
  have hn : ∀ k, fire none k = none := fun _ => rfl
  simp only [tryBody, h0, h1, h2, h3, h4, h5, hn]

/-- If an injected body run still returns normally, the injection never
fired and the value agrees with the uninjected run. -/
lemma tryBody_ok_of_inj (c : Collaborators) (req : BatchProcessingRequest)
    (r0 : JobProcessingResult) (k : Nat) (msg : String)
    (rl : JobProcessingResult × List CollabCall)
    (h : tryBody c req (some (k, msg)) r0 = .ok rl) :
    tryBody c req none r0 = .ok rl := by
  by_cases hg : (req.enable_filtering = true ∧
      (if req.enable_filtering then execFilteringStep r0 c else (r0, [])).1.filter_result
        = some "reject")
  · rcases k with _ | k
    · simp [tryBody, fire] at h
    · have h0 : fire (some (k + 1, msg)) 0 = none := by
        simp only [fire]
        rw [if_neg (Nat.succ_ne_zero k)]
      rw [tryBody_guard_true c req _ r0 h0 hg] at h
      rw [tryBody_guard_true c req none r0 rfl hg]
      exact h
  · rcases k with _ | _ | _ | _ | _ | _ | k
    · simp [tryBody, fire] at h
    · simp [tryBody, fire, hg] at h
    · simp [tryBody, fire, hg] at h
    · simp [tryBody, fire, hg] at h
    · simp [tryBody, fire, hg] at h
    · simp [tryBody, fire, hg] at h
    · have h0 : fire (some (k + 6, msg)) 0 = none := by
        simp only [fire]; rw [if_neg (by omega : ¬(k + 6 = 0))]
      have h1 : fire (some (k + 6, msg)) 1 = none := by
        simp only [fire]; rw [if_neg (by omega : ¬(k + 6 = 1))]
      have h2 : fire (some (k + 6, msg)) 2 = none := by
        simp only [fire]; rw [if_neg (by omega : ¬(k + 6 = 2))]
      have h3 : fire (some (k + 6, msg)) 3 = none := by
        simp only [fire]; rw [if_neg (by omega : ¬(k + 6 = 3))]
      have h4 : fire (some (k + 6, msg)) 4 = none := by
        simp only [fire]; rw [if_neg (by omega : ¬(k + 6 = 4))]
      have h5 : fire (some (k + 6, msg)) 5 = none := by
        simp only [fire]; rw [if_neg (by omega : ¬(k + 6 = 5))]
      rw [← tryBody_no_fire c req (some (k + 6, msg)) r0 h0 h1 h2 h3 h4 h5]
      exact h

lemma lookup_insertKV_self (k : Nat) (v : JobProcessingResult)
    (l : List (Nat × JobProcessingResult)) :
    (insertKV k v l).lookup k = some v := by
  induction l with
  | nil => simp [insertKV, List.lookup]
  | cons p rest ih =>
    obtain ⟨k', v'⟩ := p
    by_cases h : (k == k') = true
    · simp [insertKV, h, List.lookup]
    · have h' : (k == k') = false := by simpa using h
      simp [insertKV, h', List.lookup, ih]

lemma lookup_insertKV_ne (k j : Nat) (v : JobProcessingResult)
    (l : List (Nat × JobProcessingResult)) (h : (j == k) = false) :
    (insertKV k v l).lookup j = l.lookup j := by
  induction l with
  | nil => simp [insertKV, List.lookup, h]
  | cons p rest ih =>
    obtain ⟨k', v'⟩ := p
    by_cases hk : (k == k') = true
    · have hkk : k = k' := by simpa using hk
      subst hkk
      simp [insertKV, List.lookup, h]
    · have hk' : (k == k') = false := by simpa using hk
      simp [insertKV, hk', List.lookup, ih]

/-- The aggregation fold records exactly the returned outcome of a job id
whose tasks all carry the same outcome. -/
lemma agg_results_lookup (tasks : List (Except String (Nat × JobProcessingResult)))
    (j : Nat) (v : JobProcessingResult)
    (hsame : ∀ jr, Except.ok (j, jr) ∈ tasks → jr = v) :
    ∀ acc : Nat × Nat × List (Nat × JobProcessingResult),
    (acc.2.2.lookup j = some v ∨ Except.ok (j, v) ∈ tasks) →
    ((tasks.foldl batchAggStep acc).2.2.lookup j) = some v := by
  induction tasks with
  | nil =>
    intro acc hv
    rcases hv with hv | hv
    · simpa using hv
    · simp at hv
  | cons t rest ih =>
    intro acc hv
    rw [List.foldl_cons]
    have hsame' : ∀ jr, Except.ok (j, jr) ∈ rest → jr = v :=
      fun jr hm => hsame jr (List.mem_cons_of_mem t hm)
    apply ih hsame'
    cases t with
    | error e =>
      rcases hv with hv | hv
      · exact Or.inl hv
      · rcases List.mem_cons.mp hv with heq | hm
        · simp at heq
        · exact Or.inr hm
    | ok p =>
      obtain ⟨jid, jr⟩ := p
      have hres : (batchAggStep acc (.ok (jid, jr))).2.2 = insertKV jid jr acc.2.2 := by
        unfold batchAggStep
        by_cases hst : jr.overall_status = ProcessingStatus.completed <;> simp [hst]
      by_cases hj : jid = j
      · subst hj
        have hjr : jr = v := hsame jr (List.mem_cons_self _ _)
        subst hjr
        exact Or.inl (by rw [hres]; exact lookup_insertKV_self jid jr acc.2.2)
      · rcases hv with hv | hv
        · refine Or.inl ?_
          rw [hres, lookup_insertKV_ne jid j jr acc.2.2 (by simpa using fun hc => hj hc.symm)]
          exact hv
        · rcases List.mem_cons.mp hv with heq | hm
          · simp at heq
            exact absurd heq.1.symm hj
          · exact Or.inr hm

lemma processJobsBatch_job_results (batchId : String) (collabs : Nat → Collaborators)
    (req : BatchProcessingRequest) (injects : Nat → Option (Nat × String))
    (texc : Nat → Option String) :
    (processJobsBatch batchId collabs req injects texc).job_results
      = ((req.job_ids.map fun jid =>
            match texc jid with
            | some e => Except.error e
            | none =>
              Except.ok (jid, (processSingleJob jid (collabs jid) req (injects jid)).1)
          ).foldl batchAggStep (0, 0, [])).2.2 := rfl

/-! ## Claim C1: batch count aggregation -/

/-- C1: evaluation of `process_jobs_batch` on a single-job batch whose job is
rejected by the filter (its outcome is Skipped). The code counts the Skipped
job in `failed_jobs` and `BatchProcessingResult` has no skipped-jobs bucket,
so `total_jobs` differs from `successful_jobs + failed_jobs + (number of
Skipped outcomes)`, contradicting the claimed invariant in which `failed`
counts only Failed outcomes. -/
theorem batch_counts_conflate_skipped :
    c1Batch.total_jobs = 1
    ∧ c1Batch.successful_jobs = 0
    ∧ c1Batch.failed_jobs = 1
    ∧ c1Batch.job_results.countP
        (fun p => p.2.overall_status == ProcessingStatus.skipped) = 1
    ∧ c1Batch.job_results.countP
        (fun p => p.2.overall_status == ProcessingStatus.failed) = 0
    ∧ c1Batch.total_jobs
        ≠ c1Batch.successful_jobs + c1Batch.failed_jobs
          + c1Batch.job_results.countP
              (fun p => p.2.overall_status == ProcessingStatus.skipped) := by
  decide

/-! ## Claim C3: filter rejection short-circuits the pipeline -/

/-- C3 counterexample: on a rejected job with all later stages enabled, the
pipeline does not mark the remaining not-yet-started stages Skipped — no
stage record with status `SKIPPED` exists at all; the later stages are
simply absent from the step map. -/
theorem filter_reject_marks_nothing_skipped :
    (processSingleJob 1 cRej reqAll none).1.overall_status = ProcessingStatus.skipped
    ∧ reqAll.enable_resume_customization = true
    ∧ reqAll.enable_contact_finding = true
    ∧ reqAll.enable_email_generation = true
    ∧ reqAll.enable_document_generation = true
    ∧ (processSingleJob 1 cRej reqAll none).1.steps.lookup "resume_customization" = none
    ∧ (processSingleJob 1 cRej reqAll none).1.steps.lookup "contact_finding" = none
    ∧ (processSingleJob 1 cRej reqAll none).1.steps.lookup "email_generation" = none
    ∧ (processSingleJob 1 cRej reqAll none).1.steps.lookup "document_generation" = none
    ∧ ∀ p ∈ (processSingleJob 1 cRej reqAll none).1.steps,
        p.2.status ≠ ProcessingStatus.skipped := by
  decide

/-- C3 (amended): when filtering is enabled and the decision resolves to
"reject", the Filter stage record is Completed, the job's overall status is
Skipped, no later-stage collaborator is invoked, and the remaining stages
are left unrecorded (the step map holds only the filtering record) rather
than being marked Skipped. -/
theorem filter_reject_skips_job (jobId : Nat) (c : Collaborators)
    (req : BatchProcessingRequest) (jd : JobData)
    (hjd : c.getJobData = some jd) (hf : req.enable_filtering = true)
    (hrej : resolvesReject c = true) :
    (processSingleJob jobId c req none).1.overall_status = ProcessingStatus.skipped
    ∧ (processSingleJob jobId c req none).1.steps
        = [("filtering", ⟨"filtering", ProcessingStatus.completed, none⟩)]
    ∧ ∀ x ∈ (processSingleJob jobId c req none).2, x = CollabCall.filterCall := by
  have hfr := (execFilteringStep_reject_iff (initJobResult jobId jd) c rfl).mpr hrej
  rw [processSingleJob_reject jobId c req jd hjd hf hfr]
  obtain ⟨hsteps, hlog⟩ := execFilteringStep_reject_case (initJobResult jobId jd) c hrej
  refine ⟨rfl, ?_, hlog⟩
  simpa [initJobResult] using hsteps

/-- Witness for C3 at a concrete rejected job. -/
theorem filter_reject_skips_job_witness :
    (processSingleJob 1 cRej reqAll none).1.overall_status = ProcessingStatus.skipped
    ∧ (processSingleJob 1 cRej reqAll none).1.steps
        = [("filtering", ⟨"filtering", ProcessingStatus.completed, none⟩)]
    ∧ ∀ x ∈ (processSingleJob 1 cRej reqAll none).2, x = CollabCall.filterCall :=
  filter_reject_skips_job 1 cRej reqAll ⟨"Engineer", "Acme"⟩ rfl rfl (by decide)

/-! ## Claim C4: per-job failure containment -/

/-- C4 counterexample: an unexpected exception raised after the filtering
stage was recorded is caught and converted to a Failed outcome, but no
generic error stage is added (the `general_error` step is created only when
the step map is still empty), refuting the claim that the converted outcome
always carries a generic error stage. -/
theorem unexpected_exception_without_general_error_step :
    (processSingleJob 1 cAccept reqAll (some (1, "boom"))).1.overall_status
      = ProcessingStatus.failed
    ∧ (processSingleJob 1 cAccept reqAll (some (1, "boom"))).1.steps
        = [("filtering", ⟨"filtering", ProcessingStatus.completed, none⟩)]
    ∧ (processSingleJob 1 cAccept reqAll (some (1, "boom"))).1.steps.lookup "general_error"
        = none := by
  decide

/-- C4 (amended): the per-job pipeline never propagates an exception — every
run returns a `JobProcessingResult`; a run interrupted by an unexpected
exception either equals the uninterrupted run (the raise point was never
reached) or yields overall status Failed with a nonempty step map (the
`general_error` step is added only when no stage was recorded yet); and in a
batch every non-exceptional sibling job id is recorded with exactly its own
pipeline outcome. -/
theorem pipeline_contains_exceptions :
    (∀ (batchId : String) (collabs : Nat → Collaborators) (req : BatchProcessingRequest)
        (injects : Nat → Option (Nat × String)) (texc : Nat → Option String) (j : Nat),
      j ∈ req.job_ids → texc j = none →
      (processJobsBatch batchId collabs req injects texc).job_results.lookup j
        = some (processSingleJob j (collabs j) req (injects j)).1)
    ∧ (∀ (jobId : Nat) (c : Collaborators) (req : BatchProcessingRequest)
        (k : Nat) (msg : String),
      ((processSingleJob jobId c req (some (k, msg))).1.overall_status
          = ProcessingStatus.failed
        ∧ (processSingleJob jobId c req (some (k, msg))).1.steps ≠ [])
      ∨ processSingleJob jobId c req (some (k, msg)) = processSingleJob jobId c req none) := by
  constructor
  · intro batchId collabs req injects texc j hmem htexc
    rw [processJobsBatch_job_results]
    apply agg_results_lookup _ j ((processSingleJob j (collabs j) req (injects j)).1) ?same
        (0, 0, []) (Or.inr ?mem)
    case same =>
      intro jr hm
      obtain ⟨a, ha, hfa⟩ := List.mem_map.mp hm
      cases hta : texc a with
      | some e => rw [hta] at hfa; simp at hfa
      | none =>
        rw [hta] at hfa
        simp only [Except.ok.injEq, Prod.mk.injEq] at hfa
        obtain ⟨haj, hjr⟩ := hfa
        subst haj
        exact hjr.symm
    case mem =>
      refine List.mem_map.mpr ⟨j, hmem, ?_⟩
      rw [htexc]
  · intro jobId c req k msg
    cases hjd : c.getJobData with
    | none =>
      right
      simp [processSingleJob, hjd]
    | some jd =>
      cases htb : tryBody c req (some (k, msg)) (initJobResult jobId jd) with
      | ok rl =>
        right
        have hnone := tryBody_ok_of_inj c req (initJobResult jobId jd) k msg rl htb
        simp [processSingleJob, hjd, htb, hnone]
      | error triple =>
        left
        obtain ⟨e, r, log⟩ := triple
        have hpe : processSingleJob jobId c req (some (k, msg)) = (handleUnexpected e r, log) := by
          simp [processSingleJob, hjd, htb]
        rw [hpe]
        exact ⟨(handleUnexpected_spec e r).1, (handleUnexpected_spec e r).2⟩

/-- Witness for C4: the sibling-continuation fact on a concrete single-job
batch, and the containment disjunction at a concrete interrupted run. -/
theorem pipeline_contains_exceptions_witness :
    (processJobsBatch "batch_1" (fun _ => cRej) reqAll (fun _ => none)
        (fun _ => none)).job_results.lookup 1
      = some (processSingleJob 1 cRej reqAll none).1
    ∧ (((processSingleJob 1 cAccept reqAll (some (1, "boom"))).1.overall_status
          = ProcessingStatus.failed
        ∧ (processSingleJob 1 cAccept reqAll (some (1, "boom"))).1.steps ≠ [])
      ∨ processSingleJob 1 cAccept reqAll (some (1, "boom"))
          = processSingleJob 1 cAccept reqAll none) :=
  ⟨pipeline_contains_exceptions.1 "batch_1" (fun _ => cRej) reqAll (fun _ => none)
      (fun _ => none) 1 (by decide) rfl,
    pipeline_contains_exceptions.2 1 cAccept reqAll 1 "boom"⟩

/-! ## Claim C5: overall job status characterization -/

/-- C5: for every uninterrupted pipeline run, the overall status is one of
Completed / Failed / Skipped; it is Skipped exactly when the job was loaded,
filtering was enabled and the decision resolved to reject; and otherwise it
is Failed exactly when some recorded stage is Failed (else Completed). -/
theorem job_overall_status_characterization (jobId : Nat) (c : Collaborators)
    (req : BatchProcessingRequest) :
    ((processSingleJob jobId c req none).1.overall_status = ProcessingStatus.completed
      ∨ (processSingleJob jobId c req none).1.overall_status = ProcessingStatus.failed
      ∨ (processSingleJob jobId c req none).1.overall_status = ProcessingStatus.skipped)
    ∧ ((processSingleJob jobId c req none).1.overall_status = ProcessingStatus.skipped
        ↔ (c.getJobData.isSome = true ∧ req.enable_filtering = true
            ∧ resolvesReject c = true))
    ∧ ((processSingleJob jobId c req none).1.overall_status = ProcessingStatus.skipped
      ∨ ((processSingleJob jobId c req none).1.overall_status = ProcessingStatus.failed
          ↔ (processSingleJob jobId c req none).1.steps.any
              (fun p => p.2.status == ProcessingStatus.failed) = true)) := by
  cases hjd : c.getJobData with
  | none =>
    have hpe : processSingleJob jobId c req none = (jobNotFoundResult jobId, []) := by
      simp [processSingleJob, hjd]
    rw [hpe]
    refine ⟨Or.inr (Or.inl rfl), ?_, Or.inr ?_⟩
    · constructor
      · intro hcon
        exact absurd hcon (by simp [jobNotFoundResult])
      · rintro ⟨hs, -⟩
        simp at hs
    · simp [jobNotFoundResult]
  | some jd =>
    by_cases hrej : req.enable_filtering = true ∧ resolvesReject c = true
    · obtain ⟨hf, hr⟩ := hrej
      have hfr := (execFilteringStep_reject_iff (initJobResult jobId jd) c rfl).mpr hr
      rw [processSingleJob_reject jobId c req jd hjd hf hfr]
      refine ⟨Or.inr (Or.inr rfl), ?_, Or.inl rfl⟩
      simp [hjd, hf, hr]
    · have hg := guard_false_of_not_reject jobId c req jd hrej
      have hst := processSingleJob_no_reject_status jobId c req jd hjd hg
      refine ⟨?_, ?_, Or.inr hst.2⟩
      · rcases hst.1 with h | h
        · exact Or.inr (Or.inl h)
        · exact Or.inl h
      · constructor
        · intro hcon
          rcases hst.1 with h | h <;> rw [hcon] at h <;> simp at h
        · rintro ⟨-, hf2, hr2⟩
          exact absurd ⟨hf2, hr2⟩ hrej

/-- Witness for C5 at a concrete rejected job. -/
theorem job_overall_status_characterization_witness :
    ((processSingleJob 1 cRej reqAll none).1.overall_status = ProcessingStatus.completed
      ∨ (processSingleJob 1 cRej reqAll none).1.overall_status = ProcessingStatus.failed
      ∨ (processSingleJob 1 cRej reqAll none).1.overall_status = ProcessingStatus.skipped)
    ∧ ((processSingleJob 1 cRej reqAll none).1.overall_status = ProcessingStatus.skipped
        ↔ (cRej.getJobData.isSome = true ∧ reqAll.enable_filtering = true
            ∧ resolvesReject cRej = true))
    ∧ ((processSingleJob 1 cRej reqAll none).1.overall_status = ProcessingStatus.skipped
      ∨ ((processSingleJob 1 cRej reqAll none).1.overall_status = ProcessingStatus.failed
          ↔ (processSingleJob 1 cRej reqAll none).1.steps.any
              (fun p => p.2.status == ProcessingStatus.failed) = true)) :=
  job_overall_status_characterization 1 cRej reqAll

/-! ## Claim C8: missing-prerequisite handling -/

/-- C8: a missing mandatory prerequisite fails the stage with the
dependency-missing error and no collaborator call — GenerateEmails requires
at least one found contact, GenerateDocuments requires the customization
result; GenerateEmails proceeds without a customized resume (passed as
optional) and completes when the generator succeeds; and after an email
dependency failure execution still continues to the enabled document stage,
which always records its own step. -/
theorem dependency_missing_stage_failures :
    (∀ (r : JobProcessingResult) (c : Collaborators), r.contact_result = none →
      (execEmailGenerationStep r c).1.steps
        = r.steps ++ [("email_generation",
            ⟨"email_generation", ProcessingStatus.failed,
              some "No contacts available for email generation"⟩)]
      ∧ (execEmailGenerationStep r c).2 = [])
    ∧ (∀ (r : JobProcessingResult) (c : Collaborators) (res : ContactSearchResult),
        r.contact_result = some res → res.contacts = [] →
        (execEmailGenerationStep r c).1.steps
          = r.steps ++ [("email_generation",
              ⟨"email_generation", ProcessingStatus.failed,
                some "No contacts available for email generation"⟩)]
        ∧ (execEmailGenerationStep r c).2 = [])
    ∧ (∀ (r : JobProcessingResult) (c : Collaborators), r.customization_result = none →
        (execDocumentGenerationStep r c).1.steps
          = r.steps ++ [("document_generation",
              ⟨"document_generation", ProcessingStatus.failed,
                some "No customized resume available for document generation"⟩)]
        ∧ (execDocumentGenerationStep r c).2 = [])
    ∧ (∀ (r : JobProcessingResult) (c : Collaborators) (res : ContactSearchResult)
          (m : GeneratedEmail),
        r.customization_result = none → r.contact_result = some res → res.contacts ≠ [] →
        (∀ ct ∈ res.contacts.take 3, c.generateEmail none ct = Except.ok (some m)) →
        (execEmailGenerationStep r c).1.steps
          = r.steps ++ [("email_generation",
              ⟨"email_generation", ProcessingStatus.completed, none⟩)])
    ∧ (∀ (jobId : Nat) (c : Collaborators) (req : BatchProcessingRequest) (jd : JobData),
        c.getJobData = some jd →
        ¬(req.enable_filtering = true ∧ resolvesReject c = true) →
        req.enable_document_generation = true →
        ∃ st, ("document_generation", st) ∈ (processSingleJob jobId c req none).1.steps) := by
  refine ⟨?_, ?_, ?_, ?_, ?_⟩
  · intro r c h
    exact ⟨by simp [execEmailGenerationStep, h], by simp [execEmailGenerationStep, h]⟩
  · intro r c res h hce
    exact ⟨by simp [execEmailGenerationStep, h, hce],
      by simp [execEmailGenerationStep, h, hce]⟩
  · intro r c h
    exact ⟨by simp [execDocumentGenerationStep, h], by simp [execDocumentGenerationStep, h]⟩
  · intro r c res m hcu hcr hne hall
    have hloop := generateEmailsLoop_all_some c.generateEmail none m (res.contacts.take 3) hall
    have htk : res.contacts.take 3 ≠ [] := by
      simpa [List.take_eq_nil_iff] using hne
    have hne2 : r.email_results
        ++ (generateEmailsLoop c.generateEmail none (res.contacts.take 3)).1 ≠ [] := by
      intro hcon
      rcases List.append_eq_nil.mp hcon with ⟨-, h2⟩
      rw [hloop.1] at h2
      have h3 : (res.contacts.take 3).length = 0 := by
        simpa using congrArg List.length h2
      exact htk (List.length_eq_zero.mp h3)
    simp [execEmailGenerationStep, hcr, hne, hcu, hloop.2, hne2]
  · intro jobId c req jd hjd hnr hdoc
    have hg := guard_false_of_not_reject jobId c req jd hnr
    rw [processSingleJob_no_reject jobId c req jd hjd hg]
    dsimp only
    rw [(finalizeJobStatus_spec _).1, if_pos hdoc]
    exact execDocumentGenerationStep_mem _ c

/-- Witness for C8 at concrete inputs: dependency failures of the email and
document stages, an email stage that completes with no customized resume,
and a rejected-free pipeline that still records the document stage after the
contact search found nobody. -/
theorem dependency_missing_stage_failures_witness :
    ((execEmailGenerationStep rPlain cEmailOk).1.steps
        = rPlain.steps ++ [("email_generation",
            ⟨"email_generation", ProcessingStatus.failed,
              some "No contacts available for email generation"⟩)]
      ∧ (execEmailGenerationStep rPlain cEmailOk).2 = [])
    ∧ ((execDocumentGenerationStep rPlain cEmailOk).1.steps
        = rPlain.steps ++ [("document_generation",
            ⟨"document_generation", ProcessingStatus.failed,
              some "No customized resume available for document generation"⟩)]
      ∧ (execDocumentGenerationStep rPlain cEmailOk).2 = [])
    ∧ ((execEmailGenerationStep rContacts cEmailOk).1.steps
        = rContacts.steps ++ [("email_generation",
            ⟨"email_generation", ProcessingStatus.completed, none⟩)])
    ∧ ∃ st, ("document_generation", st) ∈ (processSingleJob 1 cNoContacts reqAll none).1.steps :=
  ⟨dependency_missing_stage_failures.1 rPlain cEmailOk rfl,
    dependency_missing_stage_failures.2.2.1 rPlain cEmailOk rfl,
    dependency_missing_stage_failures.2.2.2.1 rContacts cEmailOk ⟨["alice"]⟩ "hello"
      rfl rfl (by decide)
      (by intro ct hct; simp at hct; subst hct; rfl),
    dependency_missing_stage_failures.2.2.2.2 1 cNoContacts reqAll ⟨"Engineer", "Acme"⟩
      rfl (by decide) rfl⟩

end JobHunter
